
import Mathlib

/-!
Shallow embedding of the BUYMA pipeline orchestrator (`okmall/orchestrator.py`).

The orchestrator drives brand entities through the fixed stage list
COLLECT → CONVERT → IMAGE → PRICE → REGISTER, persisting per-stage progress in
the `pipeline_control` table (modelled as an association list keyed by
`(batch_id, mall_name, brand_name, stage)`), tracking runs in `pipeline_batches`
(modelled as a list of rows), serializing each stage across entities with a
per-stage binary semaphore (modelled by a small-step transition system), and
invoking external worker scripts (modelled by an oracle from the command line to
an exit code or a raised exception message).
-/

deriving instance DecidableEq for Except

namespace Okmall

/-- Stage list of `Orchestrator.ALL_STAGES` (order matters). -/
def ALL_STAGES : List String := ["COLLECT", "CONVERT", "IMAGE", "PRICE", "REGISTER"]

/-- Stages auto-skipped under PARTIAL run mode (`orchestrator.py` line 197). -/
def heavy_stages : List String := ["CONVERT", "IMAGE"]

/-- Key of the `pipeline_control` table: `(batch_id, mall_name, brand_name, stage)`. -/
structure StageKey where
  batch_id : String
  mall_name : String
  brand_name : String
  stage : String
deriving DecidableEq

/-- One row of `pipeline_control` (columns the orchestrator reads or writes). -/
structure StageRow where
  run_mode : String
  status : String
  error_msg : Option String
  started_at : Nat
  updated_at : Nat
deriving DecidableEq

/-- The `pipeline_control` table as an association list. -/
abbrev PipelineControl := List (StageKey × StageRow)

/-- Row lookup by key (SELECT ... WHERE batch_id AND mall_name AND brand_name AND stage). -/
def db_lookup : PipelineControl → StageKey → Option StageRow
  | [], _ => none
  | (k1, r1) :: rest, k => if k1 = k then some r1 else db_lookup rest k

/-- Insert-or-update keyed by `k` (the `ON DUPLICATE KEY UPDATE` upsert). -/
def db_upsert (k : StageKey) (fresh : StageRow) (upd : StageRow → StageRow) :
    PipelineControl → PipelineControl
  | [] => [(k, fresh)]
  | (k1, r1) :: rest =>
      if k1 = k then (k1, upd r1) :: rest else (k1, r1) :: db_upsert k fresh upd rest

/-- One row of `pipeline_batches`. -/
structure BatchRow where
  batch_id : String
  run_mode : String
  status : String
  total_brands : Option Nat
  success_brands : Option Nat
  end_time : Option Nat
deriving DecidableEq

/-- One row of `mall_brands` as consumed by `get_target_brands`. -/
structure BrandInfo where
  mall_name : String
  mall_brand_name_en : String
  buyma_brand_name : Option String
deriving DecidableEq

/-- Python `str.upper()` as used on stage names: char-wise ASCII upper-casing,
written over the underlying char list so that it evaluates in the kernel. -/
def py_upper (s : String) : String := ⟨s.data.map Char.toUpper⟩

/-- Python `v or dflt` on an optional string column (empty string is falsy). -/
def py_str_or (v : Option String) (dflt : String) : String :=
  match v with
  | some s => if s = "" then dflt else s
  | none => dflt

/-- Orchestrator fields relevant to the claims (`Orchestrator.__init__`). -/
structure Orchestrator where
  run_mode : String
  batch_id : String
  stages : List String
deriving DecidableEq

/-- Stage-list truncation from the `--until` option (`__init__` lines 47-55);
`Except.error` models the `ValueError` raised for an unknown stage name. -/
def mk_stages (until_stage : Option String) : Except String (List String) :=
  match until_stage with
  | none => Except.ok ALL_STAGES
  | some u =>
      let uu := py_upper u
      if uu ∈ ALL_STAGES then
        Except.ok (ALL_STAGES.take (ALL_STAGES.indexOf uu + 1))
      else
        Except.error "유효하지 않은 단계"

/-- Last element of the truncated stage list (`self.final_stage = self.stages[-1]`). -/
def final_stage (o : Orchestrator) : String := o.stages.getLastD ""

/-- Key addressed by `get_stage_status` / `update_stage_status` for this orchestrator. -/
def stage_key (o : Orchestrator) (mall brand stage : String) : StageKey :=
  { batch_id := o.batch_id, mall_name := mall, brand_name := brand, stage := stage }

/-- Current status of one stage; a missing row reads as `PENDING`
(`Orchestrator.get_stage_status`). -/
def get_stage_status (o : Orchestrator) (db : PipelineControl) (mall brand stage : String) :
    String :=
  match db_lookup db (stage_key o mall brand stage) with
  | some row => row.status
  | none => "PENDING"

/-- Row written by the INSERT branch of the upsert: `started_at` is set to NOW()
whatever status the insert carries. -/
def inserted_row (o : Orchestrator) (now : Nat) (status : String)
    (error_msg : Option String) : StageRow :=
  { run_mode := o.run_mode, status := status, error_msg := error_msg,
    started_at := now, updated_at := now }

/-- Row rewrite of the `ON DUPLICATE KEY UPDATE` branch: only `status`, `error_msg`
and `updated_at` change. -/
def updated_row (now : Nat) (status : String) (error_msg : Option String)
    (row : StageRow) : StageRow :=
  { row with status := status, error_msg := error_msg, updated_at := now }

/-- Upsert of one stage row (`Orchestrator.update_stage_status`): the INSERT sets
`started_at = NOW()`, the duplicate-key UPDATE touches only `status`, `error_msg`
and `updated_at`. -/
def update_stage_status (o : Orchestrator) (db : PipelineControl) (now : Nat)
    (mall brand stage status : String) (error_msg : Option String) : PipelineControl :=
  db_upsert (stage_key o mall brand stage)
    (inserted_row o now status error_msg)
    (updated_row now status error_msg)
    db

/-- Outcome of launching one external worker process: an exit code from
`process.wait()`, or an exception raised while launching or communicating. -/
inductive LaunchResult where
  | exitCode (code : Int)
  | raised (msg : String)

/-- Oracle giving the outcome of each external command invocation. -/
def WorkerEnv := List String → LaunchResult

/-- Ordered command lines for one stage (`Orchestrator.execute_worker` lines 245-262);
the IMAGE stage runs the image collector then the R2 uploader. -/
def worker_commands (stage target : String) : List (List String) :=
  if stage = "COLLECT" then
    [["python", "okmall_all_brands_collector.py", "--brand", target]]
  else if stage = "CONVERT" then
    [["python", "raw_to_ace_converter.py", "--brand", target]]
  else if stage = "IMAGE" then
    [["python", "image_collector_parallel.py", "--brand", target],
     ["python", "r2_image_uploader.py", "--brand", target]]
  else if stage = "PRICE" then
    [["python", "buyma_lowest_price_collector.py", "--brand", target]]
  else if stage = "REGISTER" then
    [["python", "buyma_product_register.py", "--brand", target]]
  else []

/-- Python `cmd[1]`, the script name of a command line. -/
def script_name (cmd : List String) : String := cmd.getD 1 ""

/-- Diagnostic recorded for a non-zero exit status, truncated like
`error_msg[:500]` in the source. -/
def failure_note (cmd : List String) : String :=
  ("스크립트 실행 실패: " ++ script_name cmd).take 500

/-- Sequential launch loop of `execute_worker` (lines 264-305): returns the commands
actually invoked, in order, and `some diagnostic` at the first non-zero exit or
raised exception (remaining commands are skipped), else `none`. -/
def exec_commands (env : WorkerEnv) : List (List String) → List (List String) × Option String
  | [] => ([], none)
  | cmd :: rest =>
      match env cmd with
      | LaunchResult.exitCode code =>
          if code = 0 then
            let r := exec_commands env rest
            (cmd :: r.1, r.2)
          else ([cmd], some (failure_note cmd))
      | LaunchResult.raised m => ([cmd], some (m.take 500))

/-- Observable events of a pipeline run, in program order. -/
inductive Event where
  | setStatus (mall brand stage status : String) (error_msg : Option String)
  | invoke (stage : String) (cmd : List String)
  | acquire (stage : String)
  | release (stage : String)
deriving DecidableEq

/-- Stage name an event belongs to. -/
def Event.stageOf : Event → String
  | Event.setStatus _ _ s _ _ => s
  | Event.invoke s _ => s
  | Event.acquire s => s
  | Event.release s => s

/-- Result of one pipeline step: success flag, updated table, clock, event trace. -/
structure StepResult where
  ok : Bool
  db : PipelineControl
  clock : Nat
  events : List Event

/-- One stage execution for one brand (`Orchestrator.execute_worker`): mark RUNNING,
launch the stage's commands in order, then mark DONE on all-zero exits or ERROR
with the truncated diagnostic at the first failure. -/
def execute_worker (o : Orchestrator) (env : WorkerEnv) (db : PipelineControl) (clock : Nat)
    (mall brand stage target : String) : StepResult :=
  match exec_commands env (worker_commands stage target) with
  | (invoked, none) =>
      { ok := true,
        db := update_stage_status o
          (update_stage_status o db clock mall brand stage "RUNNING" none)
          (clock + 1) mall brand stage "DONE" none,
        clock := clock + 2,
        events := Event.setStatus mall brand stage "RUNNING" none
          :: invoked.map (fun c => Event.invoke stage c)
          ++ [Event.setStatus mall brand stage "DONE" none] }
  | (invoked, some msg) =>
      { ok := false,
        db := update_stage_status o
          (update_stage_status o db clock mall brand stage "RUNNING" none)
          (clock + 1) mall brand stage "ERROR" (some msg),
        clock := clock + 2,
        events := Event.setStatus mall brand stage "RUNNING" none
          :: invoked.map (fun c => Event.invoke stage c)
          ++ [Event.setStatus mall brand stage "ERROR" (some msg)] }

/-- Stage-specific target name (`process_brand_pipeline` line 203). -/
def stage_target (mall_brand buyma_brand stage : String) : String :=
  if stage ∈ ["COLLECT", "CONVERT"] then mall_brand else buyma_brand

/-- Body of one loop iteration of `process_brand_pipeline` (lines 189-210), run while
holding the stage's lock: skip if DONE, auto-complete heavy stages in PARTIAL
mode, otherwise run the worker. -/
def process_stage_body (o : Orchestrator) (env : WorkerEnv) (db : PipelineControl)
    (clock : Nat) (mall mall_brand buyma_brand stage : String) : StepResult :=
  if get_stage_status o db mall mall_brand stage = "DONE" then
    { ok := true, db := db, clock := clock, events := [] }
  else if o.run_mode = "PARTIAL" ∧ stage ∈ heavy_stages then
    { ok := true,
      db := update_stage_status o db clock mall mall_brand stage "DONE"
        (some "Skipped in PARTIAL mode"),
      clock := clock + 1,
      events := [Event.setStatus mall mall_brand stage "DONE"
        (some "Skipped in PARTIAL mode")] }
  else
    execute_worker o env db clock mall mall_brand stage
      (stage_target mall_brand buyma_brand stage)

/-- One loop iteration of `process_brand_pipeline` including the surrounding
`with self.stage_locks[stage]` acquisition and release. -/
def process_stage (o : Orchestrator) (env : WorkerEnv) (db : PipelineControl)
    (clock : Nat) (mall mall_brand buyma_brand stage : String) : StepResult :=
  let b := process_stage_body o env db clock mall mall_brand buyma_brand stage
  { b with events := Event.acquire stage :: b.events ++ [Event.release stage] }

/-- Stage loop of `process_brand_pipeline`: walk the stage list in order, aborting
the remaining stages at the first failed stage. -/
def process_stages (o : Orchestrator) (env : WorkerEnv) (mall mall_brand buyma_brand : String) :
    PipelineControl → Nat → List String → StepResult
  | db, clock, [] => { ok := true, db := db, clock := clock, events := [] }
  | db, clock, stage :: rest =>
      let r := process_stage o env db clock mall mall_brand buyma_brand stage
      if r.ok then
        let r2 := process_stages o env mall mall_brand buyma_brand r.db r.clock rest
        { r2 with events := r.events ++ r2.events }
      else r

/-- Full pipeline of one brand (`Orchestrator.process_brand_pipeline`). -/
def process_brand_pipeline (o : Orchestrator) (env : WorkerEnv) (db : PipelineControl)
    (clock : Nat) (bi : BrandInfo) : StepResult :=
  process_stages o env bi.mall_name bi.mall_brand_name_en
    (py_str_or bi.buyma_brand_name bi.mall_brand_name_en) db clock o.stages

/-- First `pipeline_batches` row with `status = RUNNING` and the given run mode
(the `SELECT ... LIMIT 1` of `get_or_create_batch`). -/
def find_running_batch (run_mode : String) : List BatchRow → Option BatchRow
  | [] => none
  | r :: rest =>
      if r.status = "RUNNING" ∧ r.run_mode = run_mode then some r
      else find_running_batch run_mode rest

/-- Fresh batch row inserted by `get_or_create_batch` for a new run. -/
def new_batch_row (batch_id run_mode : String) : BatchRow :=
  { batch_id := batch_id, run_mode := run_mode, status := "RUNNING",
    total_brands := none, success_brands := none, end_time := none }

/-- Batch lookup or creation (`Orchestrator.get_or_create_batch`): reuse the first
RUNNING batch of this run mode, else insert one new RUNNING row under the
freshly generated timestamp token and return that token. -/
def get_or_create_batch (run_mode now_token : String) (bdb : List BatchRow) :
    String × List BatchRow :=
  match find_running_batch run_mode bdb with
  | some r => (r.batch_id, bdb)
  | none => (now_token, bdb ++ [new_batch_row now_token run_mode])

/-- First batch row with the given id. -/
def find_batch (batch_id : String) : List BatchRow → Option BatchRow
  | [] => none
  | r :: rest => if r.batch_id = batch_id then some r else find_batch batch_id rest

/-- UPDATE of `total_brands` done at the start of `Orchestrator.run`. -/
def set_total_brands (bdb : List BatchRow) (batch_id : String) (n : Nat) : List BatchRow :=
  bdb.map (fun r => if r.batch_id = batch_id then { r with total_brands := some n } else r)

/-- Distinct brand names DONE at the given stage of the given batch
(the `COUNT(DISTINCT brand_name)` query of `finish_batch`). -/
def done_brands_at (db : PipelineControl) (batch_id stage : String) : List String :=
  ((db.filter (fun p =>
      decide (p.1.batch_id = batch_id ∧ p.1.stage = stage ∧ p.2.status = "DONE"))).map
    (fun p => p.1.brand_name)).dedup

/-- Batch finalization (`Orchestrator.finish_batch`): count brands DONE at the final
stage and mark the batch COMPLETED with that count and an end time. -/
def finish_batch (o : Orchestrator) (db : PipelineControl) (bdb : List BatchRow)
    (now : Nat) : List BatchRow :=
  let cnt := (done_brands_at db o.batch_id (final_stage o)).length
  bdb.map (fun r =>
    if r.batch_id = o.batch_id then
      { r with status := "COMPLETED", end_time := some now, success_brands := some cnt }
    else r)

/-- Guard of the CPython `ThreadPoolExecutor` constructor, which raises
`ValueError("max_workers must be greater than 0")` when `max_workers <= 0`;
`Orchestrator.run` builds the pool with `max_workers = min(len(brands), len(stages))`. -/
def thread_pool_check (max_workers : Nat) : Except String Unit :=
  if max_workers = 0 then Except.error "max_workers must be greater than 0" else Except.ok ()

/-- Outcome of `Orchestrator.run`: final batch table, stage table, trace, and the
fatal-error log line when the generic handler of `run` caught an exception. -/
structure RunResult where
  batch_id : String
  batches : List BatchRow
  db : PipelineControl
  events : List Event
  fatal : Option String
deriving DecidableEq

/-- Sequential fold of the brand pipelines submitted by the scheduler; each brand's
rows are disjoint from every other brand's, so this is the observable effect of
the thread pool on the store. -/
def process_all_brands (o : Orchestrator) (env : WorkerEnv) :
    PipelineControl → Nat → List BrandInfo → PipelineControl × Nat × List Event
  | db, clock, [] => (db, clock, [])
  | db, clock, bi :: rest =>
      let r := process_brand_pipeline o env db clock bi
      let rr := process_all_brands o env r.db r.clock rest
      (rr.1, rr.2.1, r.events ++ rr.2.2)

/-- Main loop of `Orchestrator.run` (lines 125-176): resolve the batch, record the
brand count, build the task pool (whose constructor raises when the concurrency
width `min(len(brands), len(stages))` is zero — caught by the generic handler,
so the batch is never finalized), run every brand pipeline, finalize the batch.
`Except.error` models the `ValueError` of `__init__` for an invalid until stage. -/
def orchestrator_run (run_mode : String) (until_stage : Option String) (now_token : String)
    (env : WorkerEnv) (brands : List BrandInfo) (bdb : List BatchRow)
    (db : PipelineControl) (clock : Nat) : Except String RunResult :=
  match mk_stages until_stage with
  | Except.error e => Except.error e
  | Except.ok stages =>
      let p := get_or_create_batch run_mode now_token bdb
      let o : Orchestrator := { run_mode := run_mode, batch_id := p.1, stages := stages }
      let bdb1 := set_total_brands p.2 o.batch_id brands.length
      match thread_pool_check (min brands.length o.stages.length) with
      | Except.error e =>
          Except.ok { batch_id := o.batch_id, batches := bdb1, db := db, events := [],
                      fatal := some ("오케스트레이터 실행 중 치명적 오류: " ++ e) }
      | Except.ok _ =>
          let t := process_all_brands o env db clock brands
          Except.ok { batch_id := o.batch_id, batches := finish_batch o t.1 bdb1 t.2.1,
                      db := t.1, events := t.2.2, fatal := none }

/-!
Small-step model of the stage-lock concurrency of `process_brand_pipeline`:
each of `n` entity threads walks the stage list, and the body of each loop
iteration runs between acquiring and releasing `stage_locks[stage]`
(a `threading.Semaphore(1)` per stage, `__init__` line 60).
-/

/-- Program counter of one entity thread in its stage loop. -/
inductive EntityPC where
  | waiting (i : Nat)
  | inStage (i : Nat)
  | finished
  | aborted
deriving DecidableEq

/-- Shared state of the batch run: who holds each stage's semaphore, and where
each entity thread is. -/
structure PipeState (n : Nat) where
  locks : String → Option (Fin n)
  pc : Fin n → EntityPC

/-- Initial state: all locks free, every entity before its first stage. -/
def pipe_init (n : Nat) : PipeState n :=
  { locks := fun _ => none, pc := fun _ => EntityPC.waiting 0 }

/-- Interleaving steps: an entity acquires the free semaphore of its next stage and
starts executing it, or finishes the stage body, releases the semaphore, and
moves on (to the next stage, to completion, or to abort on failure). -/
inductive PipeStep (stages : List String) {n : Nat} : PipeState n → PipeState n → Prop where
  | acquireLock (s : PipeState n) (e : Fin n) (i : Nat) (hi : i < stages.length)
      (hpc : s.pc e = EntityPC.waiting i)
      (hfree : s.locks (stages.get ⟨i, hi⟩) = none) :
      PipeStep stages s
        { locks := fun st => if st = stages.get ⟨i, hi⟩ then some e else s.locks st,
          pc := fun e2 => if e2 = e then EntityPC.inStage i else s.pc e2 }
  | finishStage (s : PipeState n) (e : Fin n) (i : Nat) (hi : i < stages.length)
      (hpc : s.pc e = EntityPC.inStage i) (next : EntityPC)
      (hnext : next = EntityPC.waiting (i + 1) ∨ next = EntityPC.finished ∨
        next = EntityPC.aborted) :
      PipeStep stages s
        { locks := fun st => if st = stages.get ⟨i, hi⟩ then none else s.locks st,
          pc := fun e2 => if e2 = e then next else s.pc e2 }

/-- States reachable from the start of a batch run. -/
def PipeReach (stages : List String) (n : Nat) (s : PipeState n) : Prop :=
  Relation.ReflTransGen (PipeStep stages) (pipe_init n) s

/-- Lock-ownership invariant: an entity executing stage `i` holds that stage's
semaphore. -/
def locks_ok (stages : List String) {n : Nat} (s : PipeState n) : Prop :=
  ∀ (e : Fin n) (i : Nat), s.pc e = EntityPC.inStage i →
    ∃ hi : i < stages.length, s.locks (stages.get ⟨i, hi⟩) = some e

/-- Witness trace: entity 0 runs COLLECT, releases it, starts CONVERT; then entity 1
starts COLLECT — two entities at two different stages at once. -/
def pipe_s1 : PipeState 2 :=
  { locks := fun st => if st = "COLLECT" then some 0 else (pipe_init 2).locks st,
    pc := fun e => if e = 0 then EntityPC.inStage 0 else (pipe_init 2).pc e }

/-- Second state of the witness trace: entity 0 finished COLLECT. -/
def pipe_s2 : PipeState 2 :=
  { locks := fun st => if st = "COLLECT" then none else pipe_s1.locks st,
    pc := fun e => if e = 0 then EntityPC.waiting 1 else pipe_s1.pc e }

/-- Third state of the witness trace: entity 0 is executing CONVERT. -/
def pipe_s3 : PipeState 2 :=
  { locks := fun st => if st = "CONVERT" then some 0 else pipe_s2.locks st,
    pc := fun e => if e = 0 then EntityPC.inStage 1 else pipe_s2.pc e }

/-- Fourth state of the witness trace: entity 1 is executing COLLECT while entity 0
is executing CONVERT. -/
def pipe_s4 : PipeState 2 :=
  { locks := fun st => if st = "COLLECT" then some 1 else pipe_s3.locks st,
    pc := fun e => if e = 1 then EntityPC.inStage 0 else pipe_s3.pc e }

/-- True exactly on an `invoke` event of the given stage. -/
def invokes_stage (stage : String) (e : Event) : Bool :=
  match e with
  | Event.invoke s _ => decide (s = stage)
  | _ => false

/-- True exactly on an `invoke` event whose script is the given file name. -/
def invokes_script (name : String) (e : Event) : Bool :=
  match e with
  | Event.invoke _ cmd => decide (script_name cmd = name)
  | _ => false

/-- True exactly on the state write of the PARTIAL-mode policy skip. -/
def policy_skip_write (e : Event) : Bool :=
  match e with
  | Event.setStatus _ _ _ status msg =>
      decide (status = "DONE" ∧ msg = some "Skipped in PARTIAL mode")
  | _ => false

/-- Status field of a batch row. -/
def batch_status (r : BatchRow) : String := r.status

/-- `total_brands` field of a batch row. -/
def batch_total (r : BatchRow) : Option Nat := r.total_brands

/-- `success_brands` field of a batch row. -/
def batch_success (r : BatchRow) : Option Nat := r.success_brands

/-- Worker oracle where every launched unit exits 0. -/
def env_allok : WorkerEnv := fun _ => LaunchResult.exitCode 0

/-- Worker oracle where every launched unit exits 1. -/
def env_allfail : WorkerEnv := fun _ => LaunchResult.exitCode 1

/-- Concrete FULL-mode orchestrator over the full stage list. -/
def ofull : Orchestrator := { run_mode := "FULL", batch_id := "B", stages := ALL_STAGES }

/-- Concrete PARTIAL-mode orchestrator over the full stage list. -/
def opart : Orchestrator := { run_mode := "PARTIAL", batch_id := "B", stages := ALL_STAGES }

/-- Concrete brand row. -/
def bi_ami : BrandInfo :=
  { mall_name := "okmall", mall_brand_name_en := "AMI", buyma_brand_name := none }

/-- Second concrete brand row, independent of `bi_ami`. -/
def bi_nike : BrandInfo :=
  { mall_name := "okmall", mall_brand_name_en := "NIKE", buyma_brand_name := none }

/-- Stage table holding one DONE row for AMI at COLLECT. -/
def db_done_collect : PipelineControl :=
  [(⟨"B", "okmall", "AMI", "COLLECT"⟩,
    { run_mode := "FULL", status := "DONE", error_msg := none,
      started_at := 0, updated_at := 0 })]

/-- Image-fetch unit of the IMAGE stage. -/
def image_fetch_cmd (target : String) : List String :=
  ["python", "image_collector_parallel.py", "--brand", target]

/-- Image-upload unit of the IMAGE stage. -/
def image_upload_cmd (target : String) : List String :=
  ["python", "r2_image_uploader.py", "--brand", target]

/-- Worker oracle where only the R2 upload unit fails (exit code 2). -/
def env_upload_fail : WorkerEnv := fun c =>
  if script_name c = "r2_image_uploader.py" then LaunchResult.exitCode 2
  else LaunchResult.exitCode 0

/-- Stage table holding one RUNNING row for AMI at CONVERT, inserted at time 3. -/
def db_running_convert : PipelineControl :=
  [(⟨"B", "okmall", "AMI", "CONVERT"⟩,
    { run_mode := "FULL", status := "RUNNING", error_msg := none,
      started_at := 3, updated_at := 3 })]

/-- Result record of the empty-brands run used by the C10 witness. -/
def run10_result : RunResult :=
  { batch_id := "T1",
    batches := [{ batch_id := "T1", run_mode := "FULL", status := "RUNNING",
                  total_brands := some 0, success_brands := none, end_time := none }],
    db := [], events := [],
    fatal := some ("오케스트레이터 실행 중 치명적 오류: "
      ++ "max_workers must be greater than 0") }

/-- Result record of the until-PRICE run used by the C4 witness. -/
def run4_result : RunResult :=
  (orchestrator_run "FULL" (some "PRICE") "B1" env_allok [bi_ami] [] [] 0).toOption.getD
    { batch_id := "", batches := [], db := [], events := [], fatal := none }

/-!
Basic lemmas about the stage state store.
-/

theorem db_lookup_upsert_self (k : StageKey) (fresh : StageRow) (upd : StageRow → StageRow)
    (db : PipelineControl) :
    db_lookup (db_upsert k fresh upd db) k
      = some (match db_lookup db k with | some r => upd r | none => fresh) := by
  induction db with
  | nil => simp [db_upsert, db_lookup]
  | cons p rest ih =>
      obtain ⟨k1, r1⟩ := p
      by_cases h : k1 = k
      · simp [db_upsert, db_lookup, h]
      · simp [db_upsert, db_lookup, h, ih]

theorem db_lookup_upsert_ne (k : StageKey) (fresh : StageRow) (upd : StageRow → StageRow)
    (db : PipelineControl) (k2 : StageKey) (h : k2 ≠ k) :
    db_lookup (db_upsert k fresh upd db) k2 = db_lookup db k2 := by
  have hk : k ≠ k2 := Ne.symm h
  induction db with
  | nil => simp [db_upsert, db_lookup, hk]
  | cons p rest ih =>
      obtain ⟨k1, r1⟩ := p
      by_cases h1 : k1 = k
      · subst h1
        simp [db_upsert, db_lookup, hk]
      · simp [db_upsert, db_lookup, h1, ih]

theorem update_stage_status_lookup_self (o : Orchestrator) (db : PipelineControl) (now : Nat)
    (mall brand stage status : String) (error_msg : Option String) :
    db_lookup (update_stage_status o db now mall brand stage status error_msg)
        (stage_key o mall brand stage)
      = some (match db_lookup db (stage_key o mall brand stage) with
          | some r => updated_row now status error_msg r
          | none => inserted_row o now status error_msg) := by
  unfold update_stage_status
  exact db_lookup_upsert_self _ _ _ db

theorem update_stage_status_frame (o : Orchestrator) (db : PipelineControl) (now : Nat)
    (mall brand stage status : String) (error_msg : Option String) (k : StageKey)
    (h : k ≠ stage_key o mall brand stage) :
    db_lookup (update_stage_status o db now mall brand stage status error_msg) k
      = db_lookup db k := by
  unfold update_stage_status
  exact db_lookup_upsert_ne _ _ _ db k h

theorem update_stage_status_status_self (o : Orchestrator) (db : PipelineControl) (now : Nat)
    (mall brand stage status : String) (error_msg : Option String) :
    ∃ row, db_lookup (update_stage_status o db now mall brand stage status error_msg)
        (stage_key o mall brand stage) = some row ∧
      row.status = status ∧ row.error_msg = error_msg := by
  rw [update_stage_status_lookup_self]
  cases db_lookup db (stage_key o mall brand stage) with
  | none => exact ⟨_, rfl, rfl, rfl⟩
  | some r => exact ⟨_, rfl, rfl, rfl⟩

/-!
Lemmas about the worker invocation layer.
-/

theorem exec_commands_msg_shape (env : WorkerEnv) (l : List (List String)) (m : String)
    (h : (exec_commands env l).2 = some m) : ∃ m0 : String, m = m0.take 500 := by
  induction l with
  | nil => simp [exec_commands] at h
  | cons cmd rest ih =>
      unfold exec_commands at h
      cases he : env cmd with
      | exitCode code =>
          rw [he] at h
          by_cases hc : code = 0
          · simp only [hc, if_pos rfl] at h
            exact ih h
          · simp only [if_neg hc] at h
            injection h with h
            exact ⟨_, h.symm⟩
      | raised mm =>
          rw [he] at h
          injection h with h
          exact ⟨mm, h.symm⟩

theorem exec_commands_invoked_mem (env : WorkerEnv) (l : List (List String)) :
    ∀ c ∈ (exec_commands env l).1, c ∈ l := by
  induction l with
  | nil => simp [exec_commands]
  | cons cmd rest ih =>
      intro c hc
      unfold exec_commands at hc
      cases he : env cmd with
      | exitCode code =>
          rw [he] at hc
          by_cases hz : code = 0
          · simp only [hz, if_pos rfl] at hc
            rcases List.mem_cons.mp hc with rfl | hc
            · exact List.mem_cons_self _ _
            · exact List.mem_cons_of_mem _ (ih c hc)
          · simp only [if_neg hz] at hc
            rcases List.mem_cons.mp hc with rfl | hc
            · exact List.mem_cons_self _ _
            · simp at hc
      | raised mm =>
          rw [he] at hc
          rcases List.mem_cons.mp hc with rfl | hc
          · exact List.mem_cons_self _ _
          · simp at hc

theorem execute_worker_db_eq (o : Orchestrator) (env : WorkerEnv) (clock : Nat)
    (mall brand stage target : String) :
    ∃ (st2 : String) (msg2 : Option String), ∀ db : PipelineControl,
      (execute_worker o env db clock mall brand stage target).db
        = update_stage_status o
            (update_stage_status o db clock mall brand stage "RUNNING" none)
            (clock + 1) mall brand stage st2 msg2 := by
  rcases h : exec_commands env (worker_commands stage target) with ⟨invoked, msg⟩
  cases msg with
  | none =>
      refine ⟨"DONE", none, fun db => ?_⟩
      unfold execute_worker
      rw [h]
  | some m =>
      refine ⟨"ERROR", some m, fun db => ?_⟩
      unfold execute_worker
      rw [h]

theorem execute_worker_frame (o : Orchestrator) (env : WorkerEnv) (db : PipelineControl)
    (clock : Nat) (mall brand stage target : String) (k : StageKey)
    (h : k ≠ stage_key o mall brand stage) :
    db_lookup (execute_worker o env db clock mall brand stage target).db k
      = db_lookup db k := by
  obtain ⟨st2, msg2, heq⟩ := execute_worker_db_eq o env clock mall brand stage target
  rw [heq db, update_stage_status_frame _ _ _ _ _ _ _ _ _ h,
    update_stage_status_frame _ _ _ _ _ _ _ _ _ h]

theorem execute_worker_indep (o : Orchestrator) (env : WorkerEnv) (clock : Nat)
    (mall brand stage target : String) (db1 db2 : PipelineControl) :
    (execute_worker o env db1 clock mall brand stage target).ok
      = (execute_worker o env db2 clock mall brand stage target).ok ∧
    (execute_worker o env db1 clock mall brand stage target).events
      = (execute_worker o env db2 clock mall brand stage target).events ∧
    (execute_worker o env db1 clock mall brand stage target).clock
      = (execute_worker o env db2 clock mall brand stage target).clock := by
  unfold execute_worker
  rcases h : exec_commands env (worker_commands stage target) with ⟨invoked, msg⟩
  cases msg <;> exact ⟨rfl, rfl, rfl⟩

theorem execute_worker_events_stage (o : Orchestrator) (env : WorkerEnv) (db : PipelineControl)
    (clock : Nat) (mall brand stage target : String) :
    ∀ e ∈ (execute_worker o env db clock mall brand stage target).events,
      e.stageOf = stage := by
  intro e he
  unfold execute_worker at he
  rcases h : exec_commands env (worker_commands stage target) with ⟨invoked, msg⟩
  rw [h] at he
  cases msg with
  | none =>
      rcases List.mem_cons.mp he with rfl | he
      · rfl
      rcases List.mem_append.mp he with he | he
      · obtain ⟨c, _, rfl⟩ := List.mem_map.mp he
        rfl
      · rcases List.mem_singleton.mp he with rfl
        rfl
  | some m =>
      rcases List.mem_cons.mp he with rfl | he
      · rfl
      rcases List.mem_append.mp he with he | he
      · obtain ⟨c, _, rfl⟩ := List.mem_map.mp he
        rfl
      · rcases List.mem_singleton.mp he with rfl
        rfl

theorem execute_worker_invoke_mem (o : Orchestrator) (env : WorkerEnv) (db : PipelineControl)
    (clock : Nat) (mall brand stage target s : String) (cmd : List String)
    (h : Event.invoke s cmd ∈ (execute_worker o env db clock mall brand stage target).events) :
    s = stage ∧ cmd ∈ worker_commands stage target := by
  unfold execute_worker at h
  rcases hr : exec_commands env (worker_commands stage target) with ⟨invoked, msg⟩
  rw [hr] at h
  have hmem : ∀ c ∈ invoked, c ∈ worker_commands stage target := by
    intro c hc
    have hsub := exec_commands_invoked_mem env (worker_commands stage target)
    rw [hr] at hsub
    exact hsub c hc
  cases msg with
  | none =>
      rcases List.mem_cons.mp h with h | h
      · exact Event.noConfusion h
      rcases List.mem_append.mp h with h | h
      · obtain ⟨c, hc, he⟩ := List.mem_map.mp h
        injection he with h1 h2
        exact ⟨h1.symm, h2.symm ▸ hmem c hc⟩
      · exact Event.noConfusion (List.mem_singleton.mp h)
  | some m =>
      rcases List.mem_cons.mp h with h | h
      · exact Event.noConfusion h
      rcases List.mem_append.mp h with h | h
      · obtain ⟨c, hc, he⟩ := List.mem_map.mp h
        injection he with h1 h2
        exact ⟨h1.symm, h2.symm ▸ hmem c hc⟩
      · exact Event.noConfusion (List.mem_singleton.mp h)

theorem execute_worker_fail (o : Orchestrator) (env : WorkerEnv) (db : PipelineControl)
    (clock : Nat) (mall brand stage target : String)
    (h : (execute_worker o env db clock mall brand stage target).ok = false) :
    ∃ (row : StageRow) (m m0 : String),
      db_lookup (execute_worker o env db clock mall brand stage target).db
        (stage_key o mall brand stage) = some row ∧
      row.status = "ERROR" ∧ row.error_msg = some m ∧ m = m0.take 500 := by
  rcases hr : exec_commands env (worker_commands stage target) with ⟨invoked, msg⟩
  cases msg with
  | none =>
      exfalso
      have hok : (execute_worker o env db clock mall brand stage target).ok = true := by
        unfold execute_worker
        rw [hr]
      rw [hok] at h
      exact Bool.noConfusion h
  | some m =>
      have hdb : (execute_worker o env db clock mall brand stage target).db
          = update_stage_status o
              (update_stage_status o db clock mall brand stage "RUNNING" none)
              (clock + 1) mall brand stage "ERROR" (some m) := by
        unfold execute_worker
        rw [hr]
      obtain ⟨m0, hm0⟩ := exec_commands_msg_shape env (worker_commands stage target) m
        (by rw [hr])
      obtain ⟨row, hrow, hst, hmsg⟩ := update_stage_status_status_self o
        (update_stage_status o db clock mall brand stage "RUNNING" none)
        (clock + 1) mall brand stage "ERROR" (some m)
      exact ⟨row, m, m0, (by rw [hdb]; exact hrow), hst, hmsg, hm0⟩

/-!
Lemmas about one stage of the entity pipeline runner.
-/

theorem process_stage_done (o : Orchestrator) (env : WorkerEnv) (db : PipelineControl)
    (clock : Nat) (mall mall_brand buyma_brand stage : String)
    (h : get_stage_status o db mall mall_brand stage = "DONE") :
    process_stage o env db clock mall mall_brand buyma_brand stage
      = { ok := true, db := db, clock := clock,
          events := [Event.acquire stage, Event.release stage] } := by
  unfold process_stage process_stage_body
  rw [if_pos h]
  rfl

theorem process_stage_skip (o : Orchestrator) (env : WorkerEnv) (db : PipelineControl)
    (clock : Nat) (mall mall_brand buyma_brand stage : String)
    (h : ¬ get_stage_status o db mall mall_brand stage = "DONE")
    (hp : o.run_mode = "PARTIAL" ∧ stage ∈ heavy_stages) :
    process_stage o env db clock mall mall_brand buyma_brand stage
      = { ok := true,
          db := update_stage_status o db clock mall mall_brand stage "DONE"
            (some "Skipped in PARTIAL mode"),
          clock := clock + 1,
          events := [Event.acquire stage,
            Event.setStatus mall mall_brand stage "DONE" (some "Skipped in PARTIAL mode"),
            Event.release stage] } := by
  unfold process_stage process_stage_body
  rw [if_neg h, if_pos hp]
  rfl

theorem process_stage_worker (o : Orchestrator) (env : WorkerEnv) (db : PipelineControl)
    (clock : Nat) (mall mall_brand buyma_brand stage : String)
    (h : ¬ get_stage_status o db mall mall_brand stage = "DONE")
    (hp : ¬ (o.run_mode = "PARTIAL" ∧ stage ∈ heavy_stages)) :
    process_stage o env db clock mall mall_brand buyma_brand stage
      = { execute_worker o env db clock mall mall_brand stage
            (stage_target mall_brand buyma_brand stage) with
          events := Event.acquire stage
            :: (execute_worker o env db clock mall mall_brand stage
                (stage_target mall_brand buyma_brand stage)).events
            ++ [Event.release stage] } := by
  unfold process_stage process_stage_body
  rw [if_neg h, if_neg hp]

theorem process_stage_frame (o : Orchestrator) (env : WorkerEnv) (db : PipelineControl)
    (clock : Nat) (mall mall_brand buyma_brand stage : String) (k : StageKey)
    (h : k ≠ stage_key o mall mall_brand stage) :
    db_lookup (process_stage o env db clock mall mall_brand buyma_brand stage).db k
      = db_lookup db k := by
  by_cases h1 : get_stage_status o db mall mall_brand stage = "DONE"
  · rw [process_stage_done o env db clock mall mall_brand buyma_brand stage h1]
  by_cases h2 : o.run_mode = "PARTIAL" ∧ stage ∈ heavy_stages
  · rw [process_stage_skip o env db clock mall mall_brand buyma_brand stage h1 h2]
    exact update_stage_status_frame _ _ _ _ _ _ _ _ _ h
  · rw [process_stage_worker o env db clock mall mall_brand buyma_brand stage h1 h2]
    exact execute_worker_frame _ _ _ _ _ _ _ _ _ h

theorem process_stage_events_stage (o : Orchestrator) (env : WorkerEnv) (db : PipelineControl)
    (clock : Nat) (mall mall_brand buyma_brand stage : String) :
    ∀ e ∈ (process_stage o env db clock mall mall_brand buyma_brand stage).events,
      e.stageOf = stage := by
  intro e he
  by_cases h1 : get_stage_status o db mall mall_brand stage = "DONE"
  · rw [process_stage_done o env db clock mall mall_brand buyma_brand stage h1] at he
    rcases List.mem_cons.mp he with rfl | he
    · rfl
    rcases List.mem_singleton.mp he with rfl
    rfl
  by_cases h2 : o.run_mode = "PARTIAL" ∧ stage ∈ heavy_stages
  · rw [process_stage_skip o env db clock mall mall_brand buyma_brand stage h1 h2] at he
    rcases List.mem_cons.mp he with rfl | he
    · rfl
    rcases List.mem_cons.mp he with rfl | he
    · rfl
    rcases List.mem_singleton.mp he with rfl
    rfl
  · rw [process_stage_worker o env db clock mall mall_brand buyma_brand stage h1 h2] at he
    rcases List.mem_cons.mp he with rfl | he
    · rfl
    rcases List.mem_append.mp he with he | he
    · exact execute_worker_events_stage o env db clock mall mall_brand stage _ e he
    rcases List.mem_singleton.mp he with rfl
    rfl

theorem process_stage_invoke_mem (o : Orchestrator) (env : WorkerEnv) (db : PipelineControl)
    (clock : Nat) (mall mall_brand buyma_brand stage s : String) (cmd : List String)
    (h : Event.invoke s cmd
      ∈ (process_stage o env db clock mall mall_brand buyma_brand stage).events) :
    s = stage ∧ cmd ∈ worker_commands stage (stage_target mall_brand buyma_brand stage) := by
  by_cases h1 : get_stage_status o db mall mall_brand stage = "DONE"
  · rw [process_stage_done o env db clock mall mall_brand buyma_brand stage h1] at h
    rcases List.mem_cons.mp h with h | h
    · exact Event.noConfusion h
    exact Event.noConfusion (List.mem_singleton.mp h)
  by_cases h2 : o.run_mode = "PARTIAL" ∧ stage ∈ heavy_stages
  · rw [process_stage_skip o env db clock mall mall_brand buyma_brand stage h1 h2] at h
    rcases List.mem_cons.mp h with h | h
    · exact Event.noConfusion h
    rcases List.mem_cons.mp h with h | h
    · exact Event.noConfusion h
    exact Event.noConfusion (List.mem_singleton.mp h)
  · rw [process_stage_worker o env db clock mall mall_brand buyma_brand stage h1 h2] at h
    rcases List.mem_cons.mp h with h | h
    · exact Event.noConfusion h
    rcases List.mem_append.mp h with h | h
    · exact execute_worker_invoke_mem o env db clock mall mall_brand stage _ s cmd h
    exact Event.noConfusion (List.mem_singleton.mp h)

theorem process_stage_fail (o : Orchestrator) (env : WorkerEnv) (db : PipelineControl)
    (clock : Nat) (mall mall_brand buyma_brand stage : String)
    (h : (process_stage o env db clock mall mall_brand buyma_brand stage).ok = false) :
    ∃ (row : StageRow) (m m0 : String),
      db_lookup (process_stage o env db clock mall mall_brand buyma_brand stage).db
        (stage_key o mall mall_brand stage) = some row ∧
      row.status = "ERROR" ∧ row.error_msg = some m ∧ m = m0.take 500 := by
  by_cases h1 : get_stage_status o db mall mall_brand stage = "DONE"
  · rw [process_stage_done o env db clock mall mall_brand buyma_brand stage h1] at h
    exact Bool.noConfusion h
  by_cases h2 : o.run_mode = "PARTIAL" ∧ stage ∈ heavy_stages
  · rw [process_stage_skip o env db clock mall mall_brand buyma_brand stage h1 h2] at h
    exact Bool.noConfusion h
  · rw [process_stage_worker o env db clock mall mall_brand buyma_brand stage h1 h2] at h ⊢
    exact execute_worker_fail o env db clock mall mall_brand stage _ h

/-!
Lemmas about the stage loop of the entity pipeline runner.
-/

theorem process_stages_cons (o : Orchestrator) (env : WorkerEnv)
    (mall mall_brand buyma_brand : String) (db : PipelineControl) (clock : Nat)
    (stage : String) (rest : List String) :
    process_stages o env mall mall_brand buyma_brand db clock (stage :: rest)
      = (if (process_stage o env db clock mall mall_brand buyma_brand stage).ok then
          { process_stages o env mall mall_brand buyma_brand
              (process_stage o env db clock mall mall_brand buyma_brand stage).db
              (process_stage o env db clock mall mall_brand buyma_brand stage).clock rest with
            events := (process_stage o env db clock mall mall_brand buyma_brand stage).events
              ++ (process_stages o env mall mall_brand buyma_brand
                  (process_stage o env db clock mall mall_brand buyma_brand stage).db
                  (process_stage o env db clock mall mall_brand buyma_brand stage).clock
                  rest).events }
        else process_stage o env db clock mall mall_brand buyma_brand stage) := rfl

theorem stage_key_inj (o : Orchestrator) (mall brand : String) (s1 s2 : String)
    (h : stage_key o mall brand s1 = stage_key o mall brand s2) : s1 = s2 :=
  congrArg StageKey.stage h

theorem process_stages_events_mem (o : Orchestrator) (env : WorkerEnv)
    (mall mall_brand buyma_brand : String) (l : List String) :
    ∀ (db : PipelineControl) (clock : Nat),
      ∀ e ∈ (process_stages o env mall mall_brand buyma_brand db clock l).events,
        e.stageOf ∈ l := by
  induction l with
  | nil =>
      intro db clock e he
      simp [process_stages] at he
  | cons stage rest ih =>
      intro db clock e he
      rw [process_stages_cons] at he
      by_cases hok : (process_stage o env db clock mall mall_brand buyma_brand stage).ok = true
      · rw [if_pos hok] at he
        rcases List.mem_append.mp he with he | he
        · exact List.mem_cons.mpr (Or.inl
            (process_stage_events_stage o env db clock mall mall_brand buyma_brand stage e he))
        · exact List.mem_cons.mpr (Or.inr (ih _ _ e he))
      · rw [if_neg hok] at he
        exact List.mem_cons.mpr (Or.inl
          (process_stage_events_stage o env db clock mall mall_brand buyma_brand stage e he))

theorem process_stages_frame (o : Orchestrator) (env : WorkerEnv)
    (mall mall_brand buyma_brand : String) (l : List String) :
    ∀ (db : PipelineControl) (clock : Nat) (k : StageKey),
      (∀ s ∈ l, k ≠ stage_key o mall mall_brand s) →
      db_lookup (process_stages o env mall mall_brand buyma_brand db clock l).db k
        = db_lookup db k := by
  induction l with
  | nil =>
      intro db clock k _
      rfl
  | cons stage rest ih =>
      intro db clock k hk
      rw [process_stages_cons]
      have hk0 : k ≠ stage_key o mall mall_brand stage := hk stage (List.mem_cons_self _ _)
      by_cases hok : (process_stage o env db clock mall mall_brand buyma_brand stage).ok = true
      · rw [if_pos hok]
        have h1 := ih (process_stage o env db clock mall mall_brand buyma_brand stage).db
          (process_stage o env db clock mall mall_brand buyma_brand stage).clock k
          (fun s hs => hk s (List.mem_cons_of_mem _ hs))
        rw [h1]
        exact process_stage_frame o env db clock mall mall_brand buyma_brand stage k hk0
      · rw [if_neg hok]
        exact process_stage_frame o env db clock mall mall_brand buyma_brand stage k hk0

theorem process_stages_brand_frame (o : Orchestrator) (env : WorkerEnv)
    (mall mall_brand buyma_brand : String) (l : List String) (db : PipelineControl)
    (clock : Nat) (k : StageKey) (h : k.brand_name ≠ mall_brand) :
    db_lookup (process_stages o env mall mall_brand buyma_brand db clock l).db k
      = db_lookup db k := by
  refine process_stages_frame o env mall mall_brand buyma_brand l db clock k ?_
  intro s _ hk
  exact h (hk ▸ rfl)

theorem process_stage_agree (o : Orchestrator) (env : WorkerEnv) (clock : Nat)
    (mall mall_brand buyma_brand stage : String) (db1 db2 : PipelineControl)
    (hag : ∀ st, db_lookup db1 (stage_key o mall mall_brand st)
      = db_lookup db2 (stage_key o mall mall_brand st)) :
    (process_stage o env db1 clock mall mall_brand buyma_brand stage).ok
      = (process_stage o env db2 clock mall mall_brand buyma_brand stage).ok ∧
    (process_stage o env db1 clock mall mall_brand buyma_brand stage).events
      = (process_stage o env db2 clock mall mall_brand buyma_brand stage).events ∧
    (process_stage o env db1 clock mall mall_brand buyma_brand stage).clock
      = (process_stage o env db2 clock mall mall_brand buyma_brand stage).clock ∧
    ∀ st, db_lookup (process_stage o env db1 clock mall mall_brand buyma_brand stage).db
        (stage_key o mall mall_brand st)
      = db_lookup (process_stage o env db2 clock mall mall_brand buyma_brand stage).db
        (stage_key o mall mall_brand st) := by
  have hst : get_stage_status o db1 mall mall_brand stage
      = get_stage_status o db2 mall mall_brand stage := by
    unfold get_stage_status
    rw [hag stage]
  by_cases h1 : get_stage_status o db1 mall mall_brand stage = "DONE"
  · rw [process_stage_done o env db1 clock mall mall_brand buyma_brand stage h1,
      process_stage_done o env db2 clock mall mall_brand buyma_brand stage (hst ▸ h1)]
    exact ⟨rfl, rfl, rfl, hag⟩
  · have h1b : ¬ get_stage_status o db2 mall mall_brand stage = "DONE" := hst ▸ h1
    by_cases h2 : o.run_mode = "PARTIAL" ∧ stage ∈ heavy_stages
    · rw [process_stage_skip o env db1 clock mall mall_brand buyma_brand stage h1 h2,
        process_stage_skip o env db2 clock mall mall_brand buyma_brand stage h1b h2]
      refine ⟨rfl, rfl, rfl, fun st => ?_⟩
      by_cases hk : stage_key o mall mall_brand st = stage_key o mall mall_brand stage
      · rw [hk, update_stage_status_lookup_self, update_stage_status_lookup_self, hag stage]
      · rw [update_stage_status_frame _ _ _ _ _ _ _ _ _ hk,
          update_stage_status_frame _ _ _ _ _ _ _ _ _ hk]
        exact hag st
    · rw [process_stage_worker o env db1 clock mall mall_brand buyma_brand stage h1 h2,
        process_stage_worker o env db2 clock mall mall_brand buyma_brand stage h1b h2]
      obtain ⟨ho, he, hc⟩ := execute_worker_indep o env clock mall mall_brand stage
        (stage_target mall_brand buyma_brand stage) db1 db2
      obtain ⟨st2, msg2, heq⟩ := execute_worker_db_eq o env clock mall mall_brand stage
        (stage_target mall_brand buyma_brand stage)
      refine ⟨ho, by rw [he], hc, fun st => ?_⟩
      show db_lookup (execute_worker o env db1 clock mall mall_brand stage
          (stage_target mall_brand buyma_brand stage)).db (stage_key o mall mall_brand st)
        = db_lookup (execute_worker o env db2 clock mall mall_brand stage
          (stage_target mall_brand buyma_brand stage)).db (stage_key o mall mall_brand st)
      rw [heq db1, heq db2]
      by_cases hk : stage_key o mall mall_brand st = stage_key o mall mall_brand stage
      · rw [hk, update_stage_status_lookup_self, update_stage_status_lookup_self,
          update_stage_status_lookup_self, update_stage_status_lookup_self, hag stage]
      · rw [update_stage_status_frame _ _ _ _ _ _ _ _ _ hk,
          update_stage_status_frame _ _ _ _ _ _ _ _ _ hk,
          update_stage_status_frame _ _ _ _ _ _ _ _ _ hk,
          update_stage_status_frame _ _ _ _ _ _ _ _ _ hk]
        exact hag st

theorem process_stages_agree (o : Orchestrator) (env : WorkerEnv)
    (mall mall_brand buyma_brand : String) (l : List String) :
    ∀ (clock : Nat) (db1 db2 : PipelineControl),
      (∀ st, db_lookup db1 (stage_key o mall mall_brand st)
        = db_lookup db2 (stage_key o mall mall_brand st)) →
      (process_stages o env mall mall_brand buyma_brand db1 clock l).ok
        = (process_stages o env mall mall_brand buyma_brand db2 clock l).ok ∧
      (process_stages o env mall mall_brand buyma_brand db1 clock l).events
        = (process_stages o env mall mall_brand buyma_brand db2 clock l).events ∧
      ∀ st, db_lookup (process_stages o env mall mall_brand buyma_brand db1 clock l).db
          (stage_key o mall mall_brand st)
        = db_lookup (process_stages o env mall mall_brand buyma_brand db2 clock l).db
          (stage_key o mall mall_brand st) := by
  induction l with
  | nil =>
      intro clock db1 db2 hag
      exact ⟨rfl, rfl, hag⟩
  | cons stage rest ih =>
      intro clock db1 db2 hag
      obtain ⟨ho, he, hc, hdb⟩ := process_stage_agree o env clock mall mall_brand buyma_brand
        stage db1 db2 hag
      rw [process_stages_cons, process_stages_cons]
      by_cases hok : (process_stage o env db1 clock mall mall_brand buyma_brand stage).ok = true
      · rw [if_pos hok, if_pos (ho ▸ hok)]
        dsimp only
        rw [← hc]
        obtain ⟨iho, ihe, ihdb⟩ := ih
          (process_stage o env db1 clock mall mall_brand buyma_brand stage).clock
          (process_stage o env db1 clock mall mall_brand buyma_brand stage).db
          (process_stage o env db2 clock mall mall_brand buyma_brand stage).db hdb
        exact ⟨iho, by rw [he, ihe], ihdb⟩
      · rw [if_neg hok, if_neg (ho ▸ hok)]
        exact ⟨ho, he, hdb⟩

theorem process_stages_fail (o : Orchestrator) (env : WorkerEnv)
    (mall mall_brand buyma_brand : String) (l : List String) :
    ∀ (db : PipelineControl) (clock : Nat),
      (process_stages o env mall mall_brand buyma_brand db clock l).ok = false →
      ∃ pre stage post, l = pre ++ stage :: post ∧
        (∃ (row : StageRow) (m m0 : String),
          db_lookup (process_stages o env mall mall_brand buyma_brand db clock l).db
            (stage_key o mall mall_brand stage) = some row ∧
          row.status = "ERROR" ∧ row.error_msg = some m ∧ m = m0.take 500) ∧
        (∀ e ∈ (process_stages o env mall mall_brand buyma_brand db clock l).events,
          e.stageOf ∈ pre ++ [stage]) ∧
        (∀ k : StageKey, (∀ s ∈ pre ++ [stage], k ≠ stage_key o mall mall_brand s) →
          db_lookup (process_stages o env mall mall_brand buyma_brand db clock l).db k
            = db_lookup db k) := by
  induction l with
  | nil =>
      intro db clock h
      exact Bool.noConfusion h
  | cons stage0 rest ih =>
      intro db clock h
      rw [process_stages_cons] at h ⊢
      by_cases hok : (process_stage o env db clock mall mall_brand buyma_brand stage0).ok = true
      · rw [if_pos hok] at h ⊢
        obtain ⟨pre, stage, post, hsplit, herr, hev, hfr⟩ := ih
          (process_stage o env db clock mall mall_brand buyma_brand stage0).db
          (process_stage o env db clock mall mall_brand buyma_brand stage0).clock h
        refine ⟨stage0 :: pre, stage, post, by rw [hsplit, List.cons_append], herr, ?_, ?_⟩
        · intro e he
          rcases List.mem_append.mp he with he | he
          · exact List.mem_cons.mpr (Or.inl
              (process_stage_events_stage o env db clock mall mall_brand buyma_brand stage0 e he))
          · exact List.mem_cons.mpr (Or.inr (hev e he))
        · intro k hk
          have h1 := hfr k (fun s hs => hk s (List.mem_cons_of_mem _ hs))
          rw [h1]
          exact process_stage_frame o env db clock mall mall_brand buyma_brand stage0 k
            (hk stage0 (List.mem_cons_self _ _))
      · rw [if_neg hok] at h ⊢
        have hfalse : (process_stage o env db clock mall mall_brand buyma_brand stage0).ok
            = false := Bool.eq_false_iff.mpr hok
        refine ⟨[], stage0, rest, rfl, ?_, ?_, ?_⟩
        · exact process_stage_fail o env db clock mall mall_brand buyma_brand stage0 hfalse
        · intro e he
          have := process_stage_events_stage o env db clock mall mall_brand buyma_brand stage0 e he
          rw [this]
          exact List.mem_cons_self _ _
        · intro k hk
          exact process_stage_frame o env db clock mall mall_brand buyma_brand stage0 k
            (hk stage0 (List.mem_cons_self _ _))

theorem process_stages_done_skip (o : Orchestrator) (env : WorkerEnv)
    (mall mall_brand buyma_brand : String) (l : List String) :
    ∀ (db : PipelineControl) (clock : Nat) (stage : String), l.Nodup → stage ∈ l →
      get_stage_status o db mall mall_brand stage = "DONE" →
      (∀ e ∈ (process_stages o env mall mall_brand buyma_brand db clock l).events,
        e.stageOf = stage → e = Event.acquire stage ∨ e = Event.release stage) ∧
      db_lookup (process_stages o env mall mall_brand buyma_brand db clock l).db
          (stage_key o mall mall_brand stage)
        = db_lookup db (stage_key o mall mall_brand stage) := by
  induction l with
  | nil =>
      intro db clock stage _ hmem
      exact absurd hmem (List.not_mem_nil _)
  | cons stage0 rest ih =>
      intro db clock stage hnd hmem hdone
      have hnd0 : stage0 ∉ rest := (List.nodup_cons.mp hnd).1
      have hndr : rest.Nodup := (List.nodup_cons.mp hnd).2
      rw [process_stages_cons]
      rcases List.mem_cons.mp hmem with rfl | hmem
      · -- the DONE stage is the head: it is skipped, and the tail never touches it
        have hr := process_stage_done o env db clock mall mall_brand buyma_brand stage hdone
        rw [hr]
        rw [if_pos rfl]
        have hkey : ∀ s ∈ rest, stage_key o mall mall_brand stage ≠ stage_key o mall mall_brand s := by
          intro s hs hk
          exact hnd0 (stage_key_inj o mall mall_brand stage s hk ▸ hs)
        constructor
        · intro e he hes
          rcases List.mem_append.mp he with he | he
          · rcases List.mem_cons.mp he with rfl | he
            · exact Or.inl rfl
            rcases List.mem_singleton.mp he with rfl
            exact Or.inr rfl
          · exfalso
            have := process_stages_events_mem o env mall mall_brand buyma_brand rest db clock e he
            rw [hes] at this
            exact hnd0 this
        · exact process_stages_frame o env mall mall_brand buyma_brand rest db clock
            (stage_key o mall mall_brand stage) hkey
      · -- the DONE stage is in the tail
        have hne : stage ≠ stage0 := fun hh => hnd0 (hh ▸ hmem)
        have hkne : stage_key o mall mall_brand stage ≠ stage_key o mall mall_brand stage0 :=
          fun hk => hne (stage_key_inj o mall mall_brand stage stage0 hk)
        have hpres : db_lookup (process_stage o env db clock mall mall_brand buyma_brand stage0).db
            (stage_key o mall mall_brand stage) = db_lookup db (stage_key o mall mall_brand stage) :=
          process_stage_frame o env db clock mall mall_brand buyma_brand stage0 _ hkne
        have hdone2 : get_stage_status o
            (process_stage o env db clock mall mall_brand buyma_brand stage0).db
            mall mall_brand stage = "DONE" := by
          unfold get_stage_status at hdone ⊢
          rw [hpres]
          exact hdone
        by_cases hok : (process_stage o env db clock mall mall_brand buyma_brand stage0).ok = true
        · rw [if_pos hok]
          obtain ⟨ihe, ihdb⟩ := ih
            (process_stage o env db clock mall mall_brand buyma_brand stage0).db
            (process_stage o env db clock mall mall_brand buyma_brand stage0).clock
            stage hndr hmem hdone2
          constructor
          · intro e he hes
            rcases List.mem_append.mp he with he | he
            · exfalso
              have := process_stage_events_stage o env db clock mall mall_brand buyma_brand
                stage0 e he
              exact hne (hes ▸ this)
            · exact ihe e he hes
          · rw [ihdb]
            exact hpres
        · rw [if_neg hok]
          constructor
          · intro e he hes
            exfalso
            have := process_stage_events_stage o env db clock mall mall_brand buyma_brand
              stage0 e he
            exact hne (hes ▸ this)
          · exact hpres

/-!
Mutual exclusion of the per-stage semaphores.
-/

theorem locks_ok_init (stages : List String) (n : Nat) : locks_ok stages (pipe_init n) := by
  intro e i h
  exact EntityPC.noConfusion h

theorem locks_ok_step (stages : List String) {n : Nat} (s1 s2 : PipeState n)
    (hs : PipeStep stages s1 s2) (h : locks_ok stages s1) : locks_ok stages s2 := by
  cases hs with
  | acquireLock e i hi hpc hfree =>
      intro e2 j hpc2
      dsimp only at hpc2 ⊢
      by_cases he : e2 = e
      · subst he
        rw [if_pos rfl] at hpc2
        injection hpc2 with hij
        subst hij
        refine ⟨hi, ?_⟩
        rw [if_pos rfl]
      · rw [if_neg he] at hpc2
        obtain ⟨hj, hlk⟩ := h e2 j hpc2
        refine ⟨hj, ?_⟩
        by_cases hname : stages.get ⟨j, hj⟩ = stages.get ⟨i, hi⟩
        · exfalso
          rw [hname] at hlk
          rw [hfree] at hlk
          exact Option.noConfusion hlk
        · rw [if_neg hname]
          exact hlk
  | finishStage e i hi hpc next hnext =>
      intro e2 j hpc2
      dsimp only at hpc2 ⊢
      by_cases he : e2 = e
      · subst he
        rw [if_pos rfl] at hpc2
        exfalso
        rcases hnext with h1 | h1 | h1 <;> rw [h1] at hpc2 <;> exact EntityPC.noConfusion hpc2
      · rw [if_neg he] at hpc2
        obtain ⟨hj, hlk⟩ := h e2 j hpc2
        refine ⟨hj, ?_⟩
        by_cases hname : stages.get ⟨j, hj⟩ = stages.get ⟨i, hi⟩
        · exfalso
          obtain ⟨hi2, hlk2⟩ := h e i hpc
          rw [hname] at hlk
          have heq : some e2 = some e := hlk.symm.trans hlk2
          injection heq with heq
          exact he heq
        · rw [if_neg hname]
          exact hlk

theorem locks_ok_reach (stages : List String) {n : Nat} (s : PipeState n)
    (h : PipeReach stages n s) : locks_ok stages s := by
  induction h with
  | refl => exact locks_ok_init stages n
  | tail hab hbc ih => exact locks_ok_step stages _ _ hbc ih

theorem pipe_step1 : PipeStep ALL_STAGES (pipe_init 2) pipe_s1 :=
  PipeStep.acquireLock (pipe_init 2) 0 0 (by decide) rfl rfl

theorem pipe_step2 : PipeStep ALL_STAGES pipe_s1 pipe_s2 :=
  PipeStep.finishStage pipe_s1 0 0 (by decide) rfl (EntityPC.waiting 1) (Or.inl rfl)

theorem pipe_step3 : PipeStep ALL_STAGES pipe_s2 pipe_s3 :=
  PipeStep.acquireLock pipe_s2 0 1 (by decide) rfl rfl

theorem pipe_step4 : PipeStep ALL_STAGES pipe_s3 pipe_s4 :=
  PipeStep.acquireLock pipe_s3 1 0 (by decide) rfl rfl

theorem pipe_s4_reach : PipeReach ALL_STAGES 2 pipe_s4 :=
  Relation.ReflTransGen.tail
    (Relation.ReflTransGen.tail
      (Relation.ReflTransGen.tail
        (Relation.ReflTransGen.tail Relation.ReflTransGen.refl pipe_step1)
        pipe_step2)
      pipe_step3)
    pipe_step4

/-!
Lemmas about the batch registry.
-/

theorem find_running_batch_spec (run_mode : String) (bdb : List BatchRow) (r : BatchRow)
    (h : find_running_batch run_mode bdb = some r) :
    r ∈ bdb ∧ r.status = "RUNNING" ∧ r.run_mode = run_mode := by
  induction bdb with
  | nil => exact Option.noConfusion h
  | cons r0 rest ih =>
      unfold find_running_batch at h
      by_cases hc : r0.status = "RUNNING" ∧ r0.run_mode = run_mode
      · rw [if_pos hc] at h
        injection h with h
        subst h
        exact ⟨List.mem_cons_self _ _, hc.1, hc.2⟩
      · rw [if_neg hc] at h
        obtain ⟨hm, h1, h2⟩ := ih h
        exact ⟨List.mem_cons_of_mem _ hm, h1, h2⟩

theorem find_batch_of_running (run_mode : String) (bdb : List BatchRow) (r : BatchRow)
    (hnd : (bdb.map (fun b => b.batch_id)).Nodup)
    (h : find_running_batch run_mode bdb = some r) :
    find_batch r.batch_id bdb = some r := by
  induction bdb with
  | nil => exact Option.noConfusion h
  | cons r0 rest ih =>
      rw [List.map_cons, List.nodup_cons] at hnd
      unfold find_running_batch at h
      unfold find_batch
      by_cases hc : r0.status = "RUNNING" ∧ r0.run_mode = run_mode
      · rw [if_pos hc] at h
        injection h with h
        subst h
        rw [if_pos rfl]
      · rw [if_neg hc] at h
        have hmem : r ∈ rest := (find_running_batch_spec run_mode rest r h).1
        by_cases hid : r0.batch_id = r.batch_id
        · exfalso
          refine hnd.1 ?_
          rw [hid]
          exact List.mem_map.mpr ⟨r, hmem, rfl⟩
        · rw [if_neg hid]
          exact ih hnd.2 h

theorem find_batch_append_fresh (bid : String) (bdb : List BatchRow) (row : BatchRow)
    (hrow : row.batch_id = bid) (hfresh : ∀ r ∈ bdb, r.batch_id ≠ bid) :
    find_batch bid (bdb ++ [row]) = some row := by
  induction bdb with
  | nil =>
      rw [List.nil_append]
      unfold find_batch
      rw [if_pos hrow]
  | cons r0 rest ih =>
      have h0 : r0.batch_id ≠ bid := hfresh r0 (List.mem_cons_self _ _)
      rw [List.cons_append]
      unfold find_batch
      rw [if_neg h0]
      exact ih (fun r hr => hfresh r (List.mem_cons_of_mem _ hr))

theorem find_batch_map_upd (bid : String) (g : BatchRow → BatchRow)
    (hg : ∀ r, (g r).batch_id = r.batch_id) (bdb : List BatchRow) :
    find_batch bid (bdb.map (fun r => if r.batch_id = bid then g r else r))
      = (find_batch bid bdb).map g := by
  induction bdb with
  | nil => rfl
  | cons r0 rest ih =>
      by_cases h0 : r0.batch_id = bid <;>
        simp [find_batch, h0, hg r0, ih]

theorem get_or_create_running (run_mode token : String) (bdb : List BatchRow)
    (hnd : (bdb.map (fun b => b.batch_id)).Nodup)
    (htok : ∀ r ∈ bdb, r.batch_id ≠ token) :
    ∃ row : BatchRow,
      find_batch (get_or_create_batch run_mode token bdb).1
        (get_or_create_batch run_mode token bdb).2 = some row ∧
      row.status = "RUNNING" ∧ row.run_mode = run_mode ∧
      row.batch_id = (get_or_create_batch run_mode token bdb).1 := by
  unfold get_or_create_batch
  cases hf : find_running_batch run_mode bdb with
  | some r =>
      obtain ⟨hmem, h1, h2⟩ := find_running_batch_spec run_mode bdb r hf
      exact ⟨r, find_batch_of_running run_mode bdb r hnd hf, h1, h2, rfl⟩
  | none =>
      refine ⟨new_batch_row token run_mode, ?_, rfl, rfl, rfl⟩
      exact find_batch_append_fresh token bdb _ rfl htok

/-!
Helper predicates used in the claim statements (kept as named `def`s so that the
statements have no inline binders).
-/

/-!
Which workers can appear in a trace.
-/

theorem process_stages_invoke (o : Orchestrator) (env : WorkerEnv)
    (mall mall_brand buyma_brand : String) (l : List String) :
    ∀ (db : PipelineControl) (clock : Nat) (s : String) (cmd : List String),
      Event.invoke s cmd ∈ (process_stages o env mall mall_brand buyma_brand db clock l).events →
      s ∈ l ∧ ∃ t, cmd ∈ worker_commands s t := by
  induction l with
  | nil =>
      intro db clock s cmd h
      simp [process_stages] at h
  | cons stage rest ih =>
      intro db clock s cmd h
      rw [process_stages_cons] at h
      by_cases hok : (process_stage o env db clock mall mall_brand buyma_brand stage).ok = true
      · rw [if_pos hok] at h
        rcases List.mem_append.mp h with h | h
        · obtain ⟨hs, hcmd⟩ := process_stage_invoke_mem o env db clock mall mall_brand
            buyma_brand stage s cmd h
          exact ⟨List.mem_cons.mpr (Or.inl hs), stage_target mall_brand buyma_brand stage,
            hs ▸ hcmd⟩
        · obtain ⟨hs, ht⟩ := ih _ _ s cmd h
          exact ⟨List.mem_cons.mpr (Or.inr hs), ht⟩
      · rw [if_neg hok] at h
        obtain ⟨hs, hcmd⟩ := process_stage_invoke_mem o env db clock mall mall_brand
          buyma_brand stage s cmd h
        exact ⟨List.mem_cons.mpr (Or.inl hs), stage_target mall_brand buyma_brand stage,
          hs ▸ hcmd⟩

theorem process_all_brands_invoke (o : Orchestrator) (env : WorkerEnv)
    (brands : List BrandInfo) :
    ∀ (db : PipelineControl) (clock : Nat) (s : String) (cmd : List String),
      Event.invoke s cmd ∈ (process_all_brands o env db clock brands).2.2 →
      s ∈ o.stages ∧ ∃ t, cmd ∈ worker_commands s t := by
  induction brands with
  | nil =>
      intro db clock s cmd h
      simp [process_all_brands] at h
  | cons bi rest ih =>
      intro db clock s cmd h
      have hsplit : (process_all_brands o env db clock (bi :: rest)).2.2
          = (process_brand_pipeline o env db clock bi).events
            ++ (process_all_brands o env (process_brand_pipeline o env db clock bi).db
                (process_brand_pipeline o env db clock bi).clock rest).2.2 := rfl
      rw [hsplit] at h
      rcases List.mem_append.mp h with h | h
      · exact process_stages_invoke o env bi.mall_name bi.mall_brand_name_en
          (py_str_or bi.buyma_brand_name bi.mall_brand_name_en) o.stages db clock s cmd h
      · exact ih _ _ s cmd h

theorem worker_commands_script (s t : String) (cmd : List String)
    (hmem : cmd ∈ worker_commands s t) (hs : s ≠ "REGISTER") :
    script_name cmd ≠ "buyma_product_register.py" := by
  unfold worker_commands at hmem
  by_cases h1 : s = "COLLECT"
  · rw [if_pos h1] at hmem
    rcases List.mem_singleton.mp hmem with rfl
    exact (by decide : ("okmall_all_brands_collector.py" : String) ≠ "buyma_product_register.py")
  rw [if_neg h1] at hmem
  by_cases h2 : s = "CONVERT"
  · rw [if_pos h2] at hmem
    rcases List.mem_singleton.mp hmem with rfl
    exact (by decide : ("raw_to_ace_converter.py" : String) ≠ "buyma_product_register.py")
  rw [if_neg h2] at hmem
  by_cases h3 : s = "IMAGE"
  · rw [if_pos h3] at hmem
    rcases List.mem_cons.mp hmem with rfl | hmem
    · exact (by decide : ("image_collector_parallel.py" : String) ≠ "buyma_product_register.py")
    rcases List.mem_singleton.mp hmem with rfl
    exact (by decide : ("r2_image_uploader.py" : String) ≠ "buyma_product_register.py")
  rw [if_neg h3] at hmem
  by_cases h4 : s = "PRICE"
  · rw [if_pos h4] at hmem
    rcases List.mem_singleton.mp hmem with rfl
    exact (by decide : ("buyma_lowest_price_collector.py" : String) ≠ "buyma_product_register.py")
  rw [if_neg h4] at hmem
  rw [if_neg hs] at hmem
  exact absurd hmem (List.not_mem_nil _)

/-!
Concrete fixtures used by the witnesses.
-/

/-!
The claims.
-/

/-- C1: for every stage name and every pair of distinct entities processed in the
same batch run, the two entities never execute that same stage at the same
instant — in every reachable state of the stage-semaphore transition system, two
distinct entities that are each inside a stage body are at different stage
names — while two entities may be at different stages simultaneously, witnessed
by a reachable state with entity 0 in CONVERT and entity 1 in COLLECT. -/
theorem claim1_stage_mutual_exclusion :
    (∀ (n : Nat) (stages : List String) (s : PipeState n), PipeReach stages n s →
      ∀ (e1 e2 : Fin n) (i j : Nat) (hi : i < stages.length) (hj : j < stages.length),
        e1 ≠ e2 → s.pc e1 = EntityPC.inStage i → s.pc e2 = EntityPC.inStage j →
        stages.get ⟨i, hi⟩ ≠ stages.get ⟨j, hj⟩) ∧
    (∃ s : PipeState 2, PipeReach ALL_STAGES 2 s ∧
      s.pc 0 = EntityPC.inStage 1 ∧ s.pc 1 = EntityPC.inStage 0) := by
  constructor
  · intro n stages s hreach e1 e2 i j hi hj hne hp1 hp2 hname
    have hlk := locks_ok_reach stages s hreach
    obtain ⟨hi1, h1⟩ := hlk e1 i hp1
    obtain ⟨hj1, h2⟩ := hlk e2 j hp2
    have h1b : s.locks (stages.get ⟨i, hi⟩) = some e1 := h1
    have h2b : s.locks (stages.get ⟨j, hj⟩) = some e2 := h2
    rw [hname] at h1b
    rw [h2b] at h1b
    exact hne (Option.some.inj h1b).symm
  · exact ⟨pipe_s4, pipe_s4_reach, rfl, rfl⟩

/-- Closed instance of C1: in the reachable state `pipe_s4`, entity 0 is executing
stage 1 and entity 1 stage 0, so those stage names differ. -/
theorem claim1_stage_mutual_exclusion_witness :
    ALL_STAGES.get ⟨1, by decide⟩ ≠ ALL_STAGES.get ⟨0, by decide⟩ :=
  claim1_stage_mutual_exclusion.1 2 ALL_STAGES pipe_s4 pipe_s4_reach 0 1 1 0
    (by decide) (by decide) (by decide) rfl rfl

/-- C2: if the stored status for (batch, entity, stage) is DONE when the entity
pipeline reaches that stage, the runner skips it — no worker invocation, no
state write, pipeline continues — and re-running the batch produces, for that
stage, only the lock acquire/release events and leaves its row untouched. -/
theorem claim2_resumption_idempotence (o : Orchestrator) (env : WorkerEnv)
    (db : PipelineControl) (clock : Nat) (bi : BrandInfo) (stage : String)
    (hnd : o.stages.Nodup) (hs : stage ∈ o.stages)
    (hdone : get_stage_status o db bi.mall_name bi.mall_brand_name_en stage = "DONE") :
    (process_stage o env db clock bi.mall_name bi.mall_brand_name_en
        (py_str_or bi.buyma_brand_name bi.mall_brand_name_en) stage
      = { ok := true, db := db, clock := clock,
          events := [Event.acquire stage, Event.release stage] }) ∧
    (∀ e ∈ (process_brand_pipeline o env db clock bi).events,
      e.stageOf = stage → e = Event.acquire stage ∨ e = Event.release stage) ∧
    db_lookup (process_brand_pipeline o env db clock bi).db
        (stage_key o bi.mall_name bi.mall_brand_name_en stage)
      = db_lookup db (stage_key o bi.mall_name bi.mall_brand_name_en stage) := by
  obtain ⟨h1, h2⟩ := process_stages_done_skip o env bi.mall_name bi.mall_brand_name_en
    (py_str_or bi.buyma_brand_name bi.mall_brand_name_en) o.stages db clock stage hnd hs hdone
  exact ⟨process_stage_done o env db clock bi.mall_name bi.mall_brand_name_en
    (py_str_or bi.buyma_brand_name bi.mall_brand_name_en) stage hdone, h1, h2⟩

/-- Closed instance of C2: with AMI's COLLECT already DONE, re-running against a
worker oracle that would fail every launch still leaves the COLLECT row
untouched and produces only lock events for COLLECT. -/
theorem claim2_resumption_idempotence_witness :
    (process_stage ofull env_allfail db_done_collect 0 "okmall" "AMI" "AMI" "COLLECT"
      = { ok := true, db := db_done_collect, clock := 0,
          events := [Event.acquire "COLLECT", Event.release "COLLECT"] }) ∧
    db_lookup (process_brand_pipeline ofull env_allfail db_done_collect 0 bi_ami).db
        (stage_key ofull "okmall" "AMI" "COLLECT")
      = db_lookup db_done_collect (stage_key ofull "okmall" "AMI" "COLLECT") :=
  ⟨(claim2_resumption_idempotence ofull env_allfail db_done_collect 0 bi_ami "COLLECT"
      (by decide) (by decide) (by decide)).1,
   (claim2_resumption_idempotence ofull env_allfail db_done_collect 0 bi_ami "COLLECT"
      (by decide) (by decide) (by decide)).2.2⟩

/-- C3: if a worker invocation fails at some stage, that (batch, entity, stage) row
ends up ERROR with a diagnostic truncated to at most 500 characters, no stage
after the failing one is executed or recorded for that entity in this batch
invocation, and a pipeline of any other entity computes the same success flag
from the resulting table as from the original one. -/
theorem claim3_failure_isolation (o : Orchestrator) (env env2 : WorkerEnv)
    (db : PipelineControl) (clock clock2 : Nat) (bi bi2 : BrandInfo)
    (hnd : o.stages.Nodup)
    (hfail : (process_brand_pipeline o env db clock bi).ok = false)
    (hne : bi2.mall_brand_name_en ≠ bi.mall_brand_name_en) :
    (∃ pre stage post, o.stages = pre ++ stage :: post ∧
      (∃ (row : StageRow) (m m0 : String),
        db_lookup (process_brand_pipeline o env db clock bi).db
          (stage_key o bi.mall_name bi.mall_brand_name_en stage) = some row ∧
        row.status = "ERROR" ∧ row.error_msg = some m ∧ m = m0.take 500) ∧
      (∀ e ∈ (process_brand_pipeline o env db clock bi).events,
        e.stageOf ∈ pre ++ [stage]) ∧
      (∀ s ∈ post, ∀ e ∈ (process_brand_pipeline o env db clock bi).events,
        e.stageOf ≠ s) ∧
      (∀ k : StageKey, k.stage ∈ post →
        db_lookup (process_brand_pipeline o env db clock bi).db k = db_lookup db k)) ∧
    (process_brand_pipeline o env2 (process_brand_pipeline o env db clock bi).db clock2 bi2).ok
      = (process_brand_pipeline o env2 db clock2 bi2).ok := by
  constructor
  · obtain ⟨pre, stage, post, hsplit, herr, hev, hfr⟩ :=
      process_stages_fail o env bi.mall_name bi.mall_brand_name_en
        (py_str_or bi.buyma_brand_name bi.mall_brand_name_en) o.stages db clock hfail
    have hpost_not : ∀ s ∈ post, s ∉ pre ++ [stage] := by
      intro s hs hmem
      have hnd2 : (pre ++ stage :: post).Nodup := hsplit ▸ hnd
      rw [List.nodup_append] at hnd2
      obtain ⟨hp, hsp, hdisj⟩ := hnd2
      rcases List.mem_append.mp hmem with hmem | hmem
      · exact hdisj hmem (List.mem_cons_of_mem _ hs)
      · rcases List.mem_singleton.mp hmem with rfl
        exact (List.nodup_cons.mp hsp).1 hs
    refine ⟨pre, stage, post, hsplit, herr, hev, ?_, ?_⟩
    · intro s hs e he hcon
      exact hpost_not s hs (hcon ▸ hev e he)
    · intro k hk
      refine hfr k ?_
      intro s hs hkey
      have hks : k.stage = s := by
        rw [hkey]
        rfl
      exact hpost_not s (hks ▸ hk) hs
  · refine (process_stages_agree o env2 bi2.mall_name bi2.mall_brand_name_en
      (py_str_or bi2.buyma_brand_name bi2.mall_brand_name_en) o.stages clock2
      (process_brand_pipeline o env db clock bi).db db ?_).1
    intro st
    exact process_stages_brand_frame o env bi.mall_name bi.mall_brand_name_en
      (py_str_or bi.buyma_brand_name bi.mall_brand_name_en) o.stages db clock
      (stage_key o bi2.mall_name bi2.mall_brand_name_en st) hne

/-- Closed instance of C3: AMI fails at COLLECT under the all-failing oracle, and
NIKE's pipeline computes the same success flag from the post-failure table as
from the empty table. -/
theorem claim3_failure_isolation_witness :
    (process_brand_pipeline ofull env_allfail [] 0 bi_ami).ok = false ∧
    (process_brand_pipeline ofull env_allok
        (process_brand_pipeline ofull env_allfail [] 0 bi_ami).db 7 bi_nike).ok
      = (process_brand_pipeline ofull env_allok [] 7 bi_nike).ok :=
  ⟨by decide,
   (claim3_failure_isolation ofull env_allfail env_allok [] 0 7 bi_ami bi_nike
      (by decide) (by decide) (by decide)).2⟩

theorem execute_worker_no_policy_skip (o : Orchestrator) (env : WorkerEnv)
    (db : PipelineControl) (clock : Nat) (mall brand stage target : String) :
    ∀ e ∈ (execute_worker o env db clock mall brand stage target).events,
      policy_skip_write e = false := by
  intro e he
  unfold execute_worker at he
  rcases h : exec_commands env (worker_commands stage target) with ⟨invoked, msg⟩
  rw [h] at he
  cases msg with
  | none =>
      rcases List.mem_cons.mp he with rfl | he
      · rfl
      rcases List.mem_append.mp he with he | he
      · obtain ⟨c, _, rfl⟩ := List.mem_map.mp he
        rfl
      · rcases List.mem_singleton.mp he with rfl
        rfl
  | some m =>
      rcases List.mem_cons.mp he with rfl | he
      · rfl
      rcases List.mem_append.mp he with he | he
      · obtain ⟨c, _, rfl⟩ := List.mem_map.mp he
        rfl
      · rcases List.mem_singleton.mp he with rfl
        rfl

/-- C5: under run_mode PARTIAL, a heavy stage (CONVERT or IMAGE) that is not
already DONE is recorded DONE with the policy-skip note without invoking any
worker, and the pipeline continues; under run_mode FULL no stage processing
ever produces the policy-skip write. -/
theorem claim5_partial_skip_policy (o : Orchestrator) (env : WorkerEnv)
    (db : PipelineControl) (clock : Nat) (mall mall_brand buyma_brand stage : String)
    (hheavy : stage ∈ heavy_stages)
    (hnotdone : ¬ get_stage_status o db mall mall_brand stage = "DONE") :
    (o.run_mode = "PARTIAL" →
      process_stage o env db clock mall mall_brand buyma_brand stage
        = { ok := true,
            db := update_stage_status o db clock mall mall_brand stage "DONE"
              (some "Skipped in PARTIAL mode"),
            clock := clock + 1,
            events := [Event.acquire stage,
              Event.setStatus mall mall_brand stage "DONE" (some "Skipped in PARTIAL mode"),
              Event.release stage] }) ∧
    (o.run_mode = "FULL" →
      (process_stage o env db clock mall mall_brand buyma_brand stage).events.filter
        policy_skip_write = []) := by
  constructor
  · intro hmode
    exact process_stage_skip o env db clock mall mall_brand buyma_brand stage hnotdone
      ⟨hmode, hheavy⟩
  · intro hmode
    have hnp : ¬ (o.run_mode = "PARTIAL" ∧ stage ∈ heavy_stages) := by
      intro hcon
      rw [hmode] at hcon
      exact absurd hcon.1 (by decide)
    rw [process_stage_worker o env db clock mall mall_brand buyma_brand stage hnotdone hnp]
    refine List.filter_eq_nil_iff.mpr ?_
    intro e he
    rcases List.mem_cons.mp he with rfl | he
    · simp [policy_skip_write]
    rcases List.mem_append.mp he with he | he
    · have := execute_worker_no_policy_skip o env db clock mall mall_brand stage
        (stage_target mall_brand buyma_brand stage) e he
      simp [this]
    · rcases List.mem_singleton.mp he with rfl
      simp [policy_skip_write]

/-- Closed instance of C5: in PARTIAL mode, CONVERT is recorded DONE with the
skip note and no worker invocation; in FULL mode the same configuration
produces no policy-skip write. -/
theorem claim5_partial_skip_policy_witness :
    (process_stage opart env_allok [] 0 "okmall" "AMI" "AMI" "CONVERT"
      = { ok := true,
          db := update_stage_status opart [] 0 "okmall" "AMI" "CONVERT" "DONE"
            (some "Skipped in PARTIAL mode"),
          clock := 1,
          events := [Event.acquire "CONVERT",
            Event.setStatus "okmall" "AMI" "CONVERT" "DONE" (some "Skipped in PARTIAL mode"),
            Event.release "CONVERT"] }) ∧
    (process_stage ofull env_allok [] 0 "okmall" "AMI" "AMI" "CONVERT").events.filter
      policy_skip_write = [] :=
  ⟨(claim5_partial_skip_policy opart env_allok [] 0 "okmall" "AMI" "AMI" "CONVERT"
      (by decide) (by decide)).1 rfl,
   (claim5_partial_skip_policy ofull env_allok [] 0 "okmall" "AMI" "AMI" "CONVERT"
      (by decide) (by decide)).2 rfl⟩

theorem worker_commands_image (target : String) :
    worker_commands "IMAGE" target = [image_fetch_cmd target, image_upload_cmd target] := rfl

/-- C7: the IMAGE stage launches the image-fetch unit then the image-upload unit,
strictly in that order; the stage is recorded DONE only when both exit 0; the
first unit that exits non-zero or raises makes the stage ERROR and skips the
remaining unit. -/
theorem claim7_multi_unit_stage (o : Orchestrator) (env : WorkerEnv)
    (db : PipelineControl) (clock : Nat) (mall brand target : String) :
    worker_commands "IMAGE" target = [image_fetch_cmd target, image_upload_cmd target] ∧
    (env (image_fetch_cmd target) = LaunchResult.exitCode 0 →
     env (image_upload_cmd target) = LaunchResult.exitCode 0 →
      execute_worker o env db clock mall brand "IMAGE" target
        = { ok := true,
            db := update_stage_status o
              (update_stage_status o db clock mall brand "IMAGE" "RUNNING" none)
              (clock + 1) mall brand "IMAGE" "DONE" none,
            clock := clock + 2,
            events := [Event.setStatus mall brand "IMAGE" "RUNNING" none,
              Event.invoke "IMAGE" (image_fetch_cmd target),
              Event.invoke "IMAGE" (image_upload_cmd target),
              Event.setStatus mall brand "IMAGE" "DONE" none] }) ∧
    (∀ c : Int, ¬ c = 0 → env (image_fetch_cmd target) = LaunchResult.exitCode c →
      execute_worker o env db clock mall brand "IMAGE" target
        = { ok := false,
            db := update_stage_status o
              (update_stage_status o db clock mall brand "IMAGE" "RUNNING" none)
              (clock + 1) mall brand "IMAGE" "ERROR"
              (some (failure_note (image_fetch_cmd target))),
            clock := clock + 2,
            events := [Event.setStatus mall brand "IMAGE" "RUNNING" none,
              Event.invoke "IMAGE" (image_fetch_cmd target),
              Event.setStatus mall brand "IMAGE" "ERROR"
                (some (failure_note (image_fetch_cmd target)))] }) ∧
    (∀ m : String, env (image_fetch_cmd target) = LaunchResult.raised m →
      execute_worker o env db clock mall brand "IMAGE" target
        = { ok := false,
            db := update_stage_status o
              (update_stage_status o db clock mall brand "IMAGE" "RUNNING" none)
              (clock + 1) mall brand "IMAGE" "ERROR" (some (m.take 500)),
            clock := clock + 2,
            events := [Event.setStatus mall brand "IMAGE" "RUNNING" none,
              Event.invoke "IMAGE" (image_fetch_cmd target),
              Event.setStatus mall brand "IMAGE" "ERROR" (some (m.take 500))] }) ∧
    (∀ c : Int, ¬ c = 0 → env (image_fetch_cmd target) = LaunchResult.exitCode 0 →
      env (image_upload_cmd target) = LaunchResult.exitCode c →
      execute_worker o env db clock mall brand "IMAGE" target
        = { ok := false,
            db := update_stage_status o
              (update_stage_status o db clock mall brand "IMAGE" "RUNNING" none)
              (clock + 1) mall brand "IMAGE" "ERROR"
              (some (failure_note (image_upload_cmd target))),
            clock := clock + 2,
            events := [Event.setStatus mall brand "IMAGE" "RUNNING" none,
              Event.invoke "IMAGE" (image_fetch_cmd target),
              Event.invoke "IMAGE" (image_upload_cmd target),
              Event.setStatus mall brand "IMAGE" "ERROR"
                (some (failure_note (image_upload_cmd target)))] }) := by
  refine ⟨rfl, ?_, ?_, ?_, ?_⟩
  · intro hf hu
    have h2 : exec_commands env [image_upload_cmd target]
        = ([image_upload_cmd target], none) := by
      unfold exec_commands
      rw [hu]
      rfl
    have h1 : exec_commands env [image_fetch_cmd target, image_upload_cmd target]
        = ([image_fetch_cmd target, image_upload_cmd target], none) := by
      unfold exec_commands
      rw [hf]
      dsimp only
      rw [if_pos rfl, h2]
    unfold execute_worker
    rw [worker_commands_image, h1]
    rfl
  · intro c hc hf
    have h1 : exec_commands env [image_fetch_cmd target, image_upload_cmd target]
        = ([image_fetch_cmd target], some (failure_note (image_fetch_cmd target))) := by
      unfold exec_commands
      rw [hf]
      dsimp only
      rw [if_neg hc]
    unfold execute_worker
    rw [worker_commands_image, h1]
    rfl
  · intro m hf
    have h1 : exec_commands env [image_fetch_cmd target, image_upload_cmd target]
        = ([image_fetch_cmd target], some (m.take 500)) := by
      unfold exec_commands
      rw [hf]
    unfold execute_worker
    rw [worker_commands_image, h1]
    rfl
  · intro c hc hf hu
    have h2 : exec_commands env [image_upload_cmd target]
        = ([image_upload_cmd target], some (failure_note (image_upload_cmd target))) := by
      unfold exec_commands
      rw [hu]
      dsimp only
      rw [if_neg hc]
    have h1 : exec_commands env [image_fetch_cmd target, image_upload_cmd target]
        = ([image_fetch_cmd target, image_upload_cmd target],
           some (failure_note (image_upload_cmd target))) := by
      unfold exec_commands
      rw [hf]
      dsimp only
      rw [if_pos rfl, h2]
    unfold execute_worker
    rw [worker_commands_image, h1]
    rfl

/-- Closed instance of C7: with both units exiting 0 the IMAGE stage is DONE after
invoking fetch then upload; with the upload unit exiting 2 the stage is ERROR
with the upload diagnostic, after both units ran in order. -/
theorem claim7_multi_unit_stage_witness :
    (execute_worker ofull env_allok [] 0 "okmall" "AMI" "IMAGE" "AMI"
      = { ok := true,
          db := update_stage_status ofull
            (update_stage_status ofull [] 0 "okmall" "AMI" "IMAGE" "RUNNING" none)
            1 "okmall" "AMI" "IMAGE" "DONE" none,
          clock := 2,
          events := [Event.setStatus "okmall" "AMI" "IMAGE" "RUNNING" none,
            Event.invoke "IMAGE" (image_fetch_cmd "AMI"),
            Event.invoke "IMAGE" (image_upload_cmd "AMI"),
            Event.setStatus "okmall" "AMI" "IMAGE" "DONE" none] }) ∧
    (execute_worker ofull env_upload_fail [] 0 "okmall" "AMI" "IMAGE" "AMI"
      = { ok := false,
          db := update_stage_status ofull
            (update_stage_status ofull [] 0 "okmall" "AMI" "IMAGE" "RUNNING" none)
            1 "okmall" "AMI" "IMAGE" "ERROR" (some (failure_note (image_upload_cmd "AMI"))),
          clock := 2,
          events := [Event.setStatus "okmall" "AMI" "IMAGE" "RUNNING" none,
            Event.invoke "IMAGE" (image_fetch_cmd "AMI"),
            Event.invoke "IMAGE" (image_upload_cmd "AMI"),
            Event.setStatus "okmall" "AMI" "IMAGE" "ERROR"
              (some (failure_note (image_upload_cmd "AMI")))] }) :=
  ⟨(claim7_multi_unit_stage ofull env_allok [] 0 "okmall" "AMI" "AMI").2.1 rfl rfl,
   (claim7_multi_unit_stage ofull env_upload_fail [] 0 "okmall" "AMI" "AMI").2.2.2.2 2
     (by decide) rfl rfl⟩

/-- C8 counterexample: in the code the lock acquisition comes first — for a fresh
COLLECT stage the trace is acquire, then the RUNNING write, then the worker
invocation; the RUNNING write does NOT precede the lock acquisition as the
claim states. -/
theorem claim8_counterexample :
    (process_stage ofull env_allok [] 0 "okmall" "AMI" "AMI" "COLLECT").events
      = [Event.acquire "COLLECT",
         Event.setStatus "okmall" "AMI" "COLLECT" "RUNNING" none,
         Event.invoke "COLLECT" ["python", "okmall_all_brands_collector.py", "--brand", "AMI"],
         Event.setStatus "okmall" "AMI" "COLLECT" "DONE" none,
         Event.release "COLLECT"] ∧
    ¬ ((process_stage ofull env_allok [] 0 "okmall" "AMI" "AMI" "COLLECT").events.indexOf
         (Event.setStatus "okmall" "AMI" "COLLECT" "RUNNING" none)
       < (process_stage ofull env_allok [] 0 "okmall" "AMI" "AMI" "COLLECT").events.indexOf
         (Event.acquire "COLLECT")) :=
  ⟨by decide, by decide⟩

/-- C8 amended: for a stage that is neither DONE nor policy-skipped, the runner
first acquires the Stage Concurrency Limiter, then (inside the worker call)
marks the record RUNNING, then launches the workers, and releases the limiter
when the call returns — so an entity still waiting for the limiter does not yet
show RUNNING for that stage. -/
theorem claim8_acquire_then_running (o : Orchestrator) (env : WorkerEnv)
    (db : PipelineControl) (clock : Nat) (mall mall_brand buyma_brand stage : String)
    (hnotdone : ¬ get_stage_status o db mall mall_brand stage = "DONE")
    (hnoskip : ¬ (o.run_mode = "PARTIAL" ∧ stage ∈ heavy_stages)) :
    ((process_stage o env db clock mall mall_brand buyma_brand stage).events
      = Event.acquire stage
        :: (execute_worker o env db clock mall mall_brand stage
            (stage_target mall_brand buyma_brand stage)).events
        ++ [Event.release stage]) ∧
    ∃ tail, (execute_worker o env db clock mall mall_brand stage
        (stage_target mall_brand buyma_brand stage)).events
      = Event.setStatus mall mall_brand stage "RUNNING" none :: tail := by
  constructor
  · rw [process_stage_worker o env db clock mall mall_brand buyma_brand stage hnotdone hnoskip]
  · unfold execute_worker
    rcases h : exec_commands env
      (worker_commands stage (stage_target mall_brand buyma_brand stage)) with ⟨invoked, msg⟩
    cases msg
    · exact ⟨_, rfl⟩
    · exact ⟨_, rfl⟩

/-- Closed instance of the amended C8 at a fresh COLLECT stage. -/
theorem claim8_acquire_then_running_witness :
    ((process_stage ofull env_allok [] 0 "okmall" "AMI" "AMI" "COLLECT").events
      = Event.acquire "COLLECT"
        :: (execute_worker ofull env_allok [] 0 "okmall" "AMI" "COLLECT"
            (stage_target "AMI" "AMI" "COLLECT")).events
        ++ [Event.release "COLLECT"]) ∧
    (execute_worker ofull env_allok [] 0 "okmall" "AMI" "COLLECT"
        (stage_target "AMI" "AMI" "COLLECT")).events.head?
      = some (Event.setStatus "okmall" "AMI" "COLLECT" "RUNNING" none) :=
  ⟨(claim8_acquire_then_running ofull env_allok [] 0 "okmall" "AMI" "AMI" "COLLECT"
      (by decide) (by decide)).1,
   by decide⟩

/-- C9 counterexample: the PARTIAL skip path inserts the (batch, entity, CONVERT)
record directly as DONE — `started_at` is set (to the insert time 5) by a write
that never transitions the record into RUNNING, so `started_at` is not set
"only on the first transition into RUNNING". -/
theorem claim9_counterexample :
    db_lookup ([] : PipelineControl) (stage_key opart "okmall" "AMI" "CONVERT") = none ∧
    (process_stage opart env_allok [] 5 "okmall" "AMI" "AMI" "CONVERT").events
      = [Event.acquire "CONVERT",
         Event.setStatus "okmall" "AMI" "CONVERT" "DONE" (some "Skipped in PARTIAL mode"),
         Event.release "CONVERT"] ∧
    db_lookup (process_stage opart env_allok [] 5 "okmall" "AMI" "AMI" "CONVERT").db
        (stage_key opart "okmall" "AMI" "CONVERT")
      = some { run_mode := "PARTIAL", status := "DONE",
               error_msg := some "Skipped in PARTIAL mode", started_at := 5, updated_at := 5 } ∧
    ("DONE" : String) ≠ "RUNNING" :=
  ⟨by decide, by decide, by decide, by decide⟩

/-- C9 amended: the upsert updates only `status`, `error_msg` and `updated_at` on an
existing row — `started_at` and `run_mode` are never changed by a later write —
while `started_at` is set by the insert that first creates the record, whatever
status that insert carries; rows under other keys are untouched. -/
theorem claim9_upsert_frame (o : Orchestrator) (db : PipelineControl) (now : Nat)
    (mall brand stage status : String) (error_msg : Option String) :
    (∀ row : StageRow, db_lookup db (stage_key o mall brand stage) = some row →
      db_lookup (update_stage_status o db now mall brand stage status error_msg)
          (stage_key o mall brand stage)
        = some { row with status := status, error_msg := error_msg, updated_at := now }) ∧
    (db_lookup db (stage_key o mall brand stage) = none →
      db_lookup (update_stage_status o db now mall brand stage status error_msg)
          (stage_key o mall brand stage)
        = some { run_mode := o.run_mode, status := status, error_msg := error_msg,
                 started_at := now, updated_at := now }) ∧
    (∀ k2 : StageKey, k2 ≠ stage_key o mall brand stage →
      db_lookup (update_stage_status o db now mall brand stage status error_msg) k2
        = db_lookup db k2) := by
  refine ⟨?_, ?_, ?_⟩
  · intro row hrow
    rw [update_stage_status_lookup_self, hrow]
    rfl
  · intro hrow
    rw [update_stage_status_lookup_self, hrow]
    rfl
  · intro k2 hk2
    exact update_stage_status_frame o db now mall brand stage status error_msg k2 hk2

/-- Closed instance of the amended C9: a later DONE write at time 9 keeps
`started_at = 3` and only refreshes status and `updated_at`; an unrelated key is
untouched. -/
theorem claim9_upsert_frame_witness :
    (db_lookup (update_stage_status ofull db_running_convert 9 "okmall" "AMI" "CONVERT"
        "DONE" none) (stage_key ofull "okmall" "AMI" "CONVERT")
      = some { run_mode := "FULL", status := "DONE", error_msg := none,
               started_at := 3, updated_at := 9 }) ∧
    (db_lookup (update_stage_status ofull db_running_convert 9 "okmall" "AMI" "CONVERT"
        "DONE" none) (stage_key ofull "okmall" "NIKE" "CONVERT")
      = db_lookup db_running_convert (stage_key ofull "okmall" "NIKE" "CONVERT")) :=
  ⟨(claim9_upsert_frame ofull db_running_convert 9 "okmall" "AMI" "CONVERT" "DONE" none).1
     { run_mode := "FULL", status := "RUNNING", error_msg := none,
       started_at := 3, updated_at := 3 } (by decide),
   (claim9_upsert_frame ofull db_running_convert 9 "okmall" "AMI" "CONVERT" "DONE" none).2.2
     (stage_key ofull "okmall" "NIKE" "CONVERT") (by decide)⟩

theorem find_running_batch_append (run_mode : String) (bdb : List BatchRow) (row : BatchRow)
    (hnone : find_running_batch run_mode bdb = none)
    (hrow : row.status = "RUNNING" ∧ row.run_mode = run_mode) :
    find_running_batch run_mode (bdb ++ [row]) = some row := by
  induction bdb with
  | nil =>
      rw [List.nil_append]
      unfold find_running_batch
      rw [if_pos hrow]
  | cons r0 rest ih =>
      unfold find_running_batch at hnone
      by_cases hc : r0.status = "RUNNING" ∧ r0.run_mode = run_mode
      · rw [if_pos hc] at hnone
        exact Option.noConfusion hnone
      · rw [if_neg hc] at hnone
        rw [List.cons_append]
        unfold find_running_batch
        rw [if_neg hc]
        exact ih hnone

/-- C6: getOrCreateBatch returns the id of the first RUNNING batch with the same
run mode when one exists, inserting nothing; otherwise it appends exactly one
new RUNNING row under the freshly generated token and returns the token — and a
later call on the resulting table (an interrupted batch restarted) returns the
same batch id again without inserting another row. -/
theorem claim6_get_or_create_batch (run_mode token : String) (bdb : List BatchRow) :
    (∀ r : BatchRow, find_running_batch run_mode bdb = some r →
      get_or_create_batch run_mode token bdb = (r.batch_id, bdb) ∧
      r ∈ bdb ∧ r.status = "RUNNING" ∧ r.run_mode = run_mode) ∧
    (find_running_batch run_mode bdb = none →
      get_or_create_batch run_mode token bdb
        = (token, bdb ++ [new_batch_row token run_mode]) ∧
      (new_batch_row token run_mode).status = "RUNNING" ∧
      (new_batch_row token run_mode).run_mode = run_mode ∧
      (new_batch_row token run_mode).batch_id = token ∧
      ∀ token2 : String,
        get_or_create_batch run_mode token2 (bdb ++ [new_batch_row token run_mode])
          = (token, bdb ++ [new_batch_row token run_mode])) := by
  constructor
  · intro r hr
    obtain ⟨hmem, h1, h2⟩ := find_running_batch_spec run_mode bdb r hr
    refine ⟨?_, hmem, h1, h2⟩
    unfold get_or_create_batch
    rw [hr]
  · intro hn
    refine ⟨?_, rfl, rfl, rfl, ?_⟩
    · unfold get_or_create_batch
      rw [hn]
    · intro token2
      unfold get_or_create_batch
      rw [find_running_batch_append run_mode bdb (new_batch_row token run_mode) hn ⟨rfl, rfl⟩]
      rfl

/-- Closed instance of C6: an existing RUNNING batch "T1" is reused by a run that
would otherwise create "T9"; on an empty table the run creates "T1", and the
restarted run with fresh token "T2" reuses "T1" without inserting. -/
theorem claim6_get_or_create_batch_witness :
    (get_or_create_batch "FULL" "T9" [new_batch_row "T1" "FULL"]
      = ((new_batch_row "T1" "FULL").batch_id, [new_batch_row "T1" "FULL"])) ∧
    (get_or_create_batch "FULL" "T1" ([] : List BatchRow)
      = ("T1", [] ++ [new_batch_row "T1" "FULL"])) ∧
    (get_or_create_batch "FULL" "T2" ([] ++ [new_batch_row "T1" "FULL"])
      = ("T1", [] ++ [new_batch_row "T1" "FULL"])) :=
  ⟨((claim6_get_or_create_batch "FULL" "T9" [new_batch_row "T1" "FULL"]).1
      (new_batch_row "T1" "FULL") (by decide)).1,
   ((claim6_get_or_create_batch "FULL" "T1" []).2 rfl).1,
   ((claim6_get_or_create_batch "FULL" "T1" []).2 rfl).2.2.2.2 "T2"⟩

/-!
Run-level reductions of `orchestrator_run`.
-/

theorem orchestrator_run_fatal_eq (run_mode token : String) (until_stage : Option String)
    (env : WorkerEnv) (brands : List BrandInfo) (bdb : List BatchRow) (db : PipelineControl)
    (clock : Nat) (stages : List String) (e : String)
    (hst : mk_stages until_stage = Except.ok stages)
    (hpool : thread_pool_check (min brands.length stages.length) = Except.error e) :
    orchestrator_run run_mode until_stage token env brands bdb db clock
      = Except.ok
          { batch_id := (get_or_create_batch run_mode token bdb).1,
            batches := set_total_brands (get_or_create_batch run_mode token bdb).2
              (get_or_create_batch run_mode token bdb).1 brands.length,
            db := db, events := [],
            fatal := some ("오케스트레이터 실행 중 치명적 오류: " ++ e) } := by
  unfold orchestrator_run
  rw [hst]
  dsimp only
  rw [hpool]

theorem orchestrator_run_ok_eq (run_mode token : String) (until_stage : Option String)
    (env : WorkerEnv) (brands : List BrandInfo) (bdb : List BatchRow) (db : PipelineControl)
    (clock : Nat) (stages : List String)
    (hst : mk_stages until_stage = Except.ok stages)
    (hpool : thread_pool_check (min brands.length stages.length) = Except.ok ()) :
    orchestrator_run run_mode until_stage token env brands bdb db clock
      = Except.ok
          { batch_id := (get_or_create_batch run_mode token bdb).1,
            batches := finish_batch
              { run_mode := run_mode, batch_id := (get_or_create_batch run_mode token bdb).1,
                stages := stages }
              (process_all_brands
                { run_mode := run_mode, batch_id := (get_or_create_batch run_mode token bdb).1,
                  stages := stages } env db clock brands).1
              (set_total_brands (get_or_create_batch run_mode token bdb).2
                (get_or_create_batch run_mode token bdb).1 brands.length)
              (process_all_brands
                { run_mode := run_mode, batch_id := (get_or_create_batch run_mode token bdb).1,
                  stages := stages } env db clock brands).2.1,
            db := (process_all_brands
              { run_mode := run_mode, batch_id := (get_or_create_batch run_mode token bdb).1,
                stages := stages } env db clock brands).1,
            events := (process_all_brands
              { run_mode := run_mode, batch_id := (get_or_create_batch run_mode token bdb).1,
                stages := stages } env db clock brands).2.2,
            fatal := none } := by
  unfold orchestrator_run
  rw [hst]
  dsimp only
  rw [hpool]

theorem find_batch_set_total (bid : String) (n : Nat) (bdb : List BatchRow) :
    find_batch bid (set_total_brands bdb bid n)
      = (find_batch bid bdb).map (fun row => { row with total_brands := some n }) :=
  find_batch_map_upd bid (fun row => { row with total_brands := some n }) (fun _ => rfl) bdb

theorem find_batch_finish (o : Orchestrator) (bid : String) (hbid : o.batch_id = bid)
    (dbX : PipelineControl) (bdb : List BatchRow) (now : Nat) :
    find_batch bid (finish_batch o dbX bdb now)
      = (find_batch bid bdb).map (fun row =>
          { row with
            status := "COMPLETED", end_time := some now,
            success_brands := some (done_brands_at dbX o.batch_id (final_stage o)).length }) := by
  subst hbid
  exact find_batch_map_upd o.batch_id
    (fun row =>
      { row with
        status := "COMPLETED", end_time := some now,
        success_brands := some (done_brands_at dbX o.batch_id (final_stage o)).length })
    (fun _ => rfl) bdb

/-- C10: with an empty enumerated entity list, the run terminates with the fatal
orchestrator error from the task pool constructor (concurrency width
min(0, stage count) = 0), before any stage executes: the trace is empty, the
stage table is untouched, finishBatch is never reflected in the registry, and
the batch row is still RUNNING (with total_brands recorded as 0). -/
theorem claim10_empty_entity_list (run_mode token : String) (until_stage : Option String)
    (env : WorkerEnv) (bdb : List BatchRow) (db : PipelineControl) (clock : Nat)
    (stages : List String) (r : RunResult)
    (hst : mk_stages until_stage = Except.ok stages)
    (hnd : (bdb.map (fun b => b.batch_id)).Nodup)
    (htok : ∀ b ∈ bdb, b.batch_id ≠ token)
    (hr : orchestrator_run run_mode until_stage token env [] bdb db clock = Except.ok r) :
    min (List.length ([] : List BrandInfo)) stages.length = 0 ∧
    thread_pool_check (min (List.length ([] : List BrandInfo)) stages.length)
      = Except.error "max_workers must be greater than 0" ∧
    r.fatal = some ("오케스트레이터 실행 중 치명적 오류: "
      ++ "max_workers must be greater than 0") ∧
    r.events = [] ∧
    r.db = db ∧
    (find_batch r.batch_id r.batches).map batch_status = some "RUNNING" ∧
    (find_batch r.batch_id r.batches).map batch_total = some (some 0) := by
  have hmin : min (List.length ([] : List BrandInfo)) stages.length = 0 := Nat.zero_min _
  have hch : thread_pool_check (min (List.length ([] : List BrandInfo)) stages.length)
      = Except.error "max_workers must be greater than 0" := by
    rw [hmin]
    rfl
  rw [orchestrator_run_fatal_eq run_mode token until_stage env [] bdb db clock stages
    "max_workers must be greater than 0" hst hch] at hr
  injection hr with hr
  subst hr
  obtain ⟨row0, hfound, hstat, hmode, hbid⟩ := get_or_create_running run_mode token bdb hnd htok
  refine ⟨hmin, hch, rfl, rfl, rfl, ?_, ?_⟩
  · dsimp only
    rw [find_batch_set_total, hfound]
    simp [batch_status, hstat]
  · dsimp only
    rw [find_batch_set_total, hfound]
    simp [batch_total]

/-- Closed instance of C10: a FULL run over no brands on an empty registry leaves a
RUNNING batch row with total_brands 0, an untouched stage table, no events, and
the fatal log line. -/
theorem claim10_empty_entity_list_witness :
    (orchestrator_run "FULL" none "T1" env_allok [] [] [] 0).map
        (fun r2 => r2.fatal)
      = Except.ok (some ("오케스트레이터 실행 중 치명적 오류: "
          ++ "max_workers must be greater than 0")) ∧
    (find_batch run10_result.batch_id run10_result.batches).map batch_status
      = some "RUNNING" ∧
    (find_batch run10_result.batch_id run10_result.batches).map batch_total
      = some (some 0) ∧
    run10_result.events = [] ∧
    run10_result.db = [] := by
  have h := claim10_empty_entity_list "FULL" "T1" none env_allok [] [] 0 ALL_STAGES
    run10_result rfl (by decide) (by decide) rfl
  exact ⟨rfl, h.2.2.2.2.2.1, h.2.2.2.2.2.2, h.2.2.2.1, h.2.2.2.2.1⟩

theorem mem_until_price_ne_register (s : String)
    (h : s ∈ (["COLLECT", "CONVERT", "IMAGE", "PRICE"] : List String)) : s ≠ "REGISTER" := by
  fin_cases h <;> decide

/-- C4: requesting final stage PRICE truncates the stage sequence to the prefix
ending at PRICE, the REGISTER worker is never invoked for any entity (no invoke
event of stage REGISTER, nor of the register script), and when the run is not
fatal, batch finalization records as success count exactly the number of
distinct brands whose record at PRICE (not REGISTER) is DONE. -/
theorem claim4_until_truncation (run_mode token : String) (env : WorkerEnv)
    (brands : List BrandInfo) (bdb : List BatchRow) (db : PipelineControl) (clock : Nat)
    (r : RunResult)
    (hnd : (bdb.map (fun b => b.batch_id)).Nodup)
    (htok : ∀ b ∈ bdb, b.batch_id ≠ token)
    (hr : orchestrator_run run_mode (some "PRICE") token env brands bdb db clock
      = Except.ok r) :
    mk_stages (some "PRICE") = Except.ok ["COLLECT", "CONVERT", "IMAGE", "PRICE"] ∧
    r.events.filter (invokes_stage "REGISTER") = [] ∧
    r.events.filter (invokes_script "buyma_product_register.py") = [] ∧
    (r.fatal = none →
      (find_batch r.batch_id r.batches).map batch_success
        = some (some (done_brands_at r.db r.batch_id "PRICE").length)) := by
  have hmk : mk_stages (some "PRICE")
      = Except.ok ["COLLECT", "CONVERT", "IMAGE", "PRICE"] := by decide
  cases hch : thread_pool_check (min brands.length
      (List.length ["COLLECT", "CONVERT", "IMAGE", "PRICE"])) with
  | error e =>
      rw [orchestrator_run_fatal_eq run_mode token (some "PRICE") env brands bdb db clock
        ["COLLECT", "CONVERT", "IMAGE", "PRICE"] e hmk hch] at hr
      injection hr with hr
      subst hr
      refine ⟨hmk, rfl, rfl, ?_⟩
      intro hf
      exact Option.noConfusion hf
  | ok u =>
      cases u
      rw [orchestrator_run_ok_eq run_mode token (some "PRICE") env brands bdb db clock
        ["COLLECT", "CONVERT", "IMAGE", "PRICE"] hmk hch] at hr
      injection hr with hr
      subst hr
      refine ⟨hmk, ?_, ?_, ?_⟩
      · dsimp only
        refine List.filter_eq_nil_iff.mpr ?_
        intro e he
        cases e with
        | invoke s cmd =>
            obtain ⟨hs, t, hcmd⟩ := process_all_brands_invoke
              { run_mode := run_mode, batch_id := (get_or_create_batch run_mode token bdb).1,
                stages := ["COLLECT", "CONVERT", "IMAGE", "PRICE"] }
              env brands db clock s cmd he
            intro hcon
            have hreg : s = "REGISTER" := by
              simpa [invokes_stage] using hcon
            exact mem_until_price_ne_register s hs hreg
        | setStatus mall brand stage status msg => simp [invokes_stage]
        | acquire stage => simp [invokes_stage]
        | release stage => simp [invokes_stage]
      · dsimp only
        refine List.filter_eq_nil_iff.mpr ?_
        intro e he
        cases e with
        | invoke s cmd =>
            obtain ⟨hs, t, hcmd⟩ := process_all_brands_invoke
              { run_mode := run_mode, batch_id := (get_or_create_batch run_mode token bdb).1,
                stages := ["COLLECT", "CONVERT", "IMAGE", "PRICE"] }
              env brands db clock s cmd he
            intro hcon
            have hscript : script_name cmd = "buyma_product_register.py" := by
              simpa [invokes_script] using hcon
            exact worker_commands_script s t cmd hcmd (mem_until_price_ne_register s hs) hscript
        | setStatus mall brand stage status msg => simp [invokes_script]
        | acquire stage => simp [invokes_script]
        | release stage => simp [invokes_script]
      · intro hf
        dsimp only
        obtain ⟨row0, hfound, hstat, hmode, hbid⟩ :=
          get_or_create_running run_mode token bdb hnd htok
        rw [find_batch_finish
          { run_mode := run_mode, batch_id := (get_or_create_batch run_mode token bdb).1,
            stages := ["COLLECT", "CONVERT", "IMAGE", "PRICE"] }
          (get_or_create_batch run_mode token bdb).1 rfl]
        rw [find_batch_set_total, hfound]
        simp [batch_success]
        rfl

/-- Closed instance of C4: an until-PRICE run over one brand with all units
succeeding invokes no REGISTER worker and counts success at PRICE. -/
theorem claim4_until_truncation_witness :
    run4_result.events.filter (invokes_stage "REGISTER") = [] ∧
    run4_result.events.filter (invokes_script "buyma_product_register.py") = [] ∧
    (find_batch run4_result.batch_id run4_result.batches).map batch_success
      = some (some (done_brands_at run4_result.db run4_result.batch_id "PRICE").length) := by
  have h := claim4_until_truncation "FULL" "B1" env_allok [bi_ami] [] [] 0 run4_result
    (by decide) (by decide) (by decide)
  exact ⟨h.2.1, h.2.2.1, h.2.2.2 (by decide)⟩

end Okmall
